import Mathlib

/-!
Verification development for the tron-lightcycle simulation core.

The TypeScript sources embedded here are:
  src/src/engine/types.ts   (BikeState, GameConfig, CollisionResult, enums)
  src/src/engine/config.ts  (DEFAULT_CONFIG)
  src/src/engine/bike.ts    (BikePhysics: clampToBoundary, checkCollisions)
  src/unnamed/part_006      (Arena)
  src/unnamed/part_007      (GameEngine: update, reset, queueTurn, ...)

Embedding conventions (JS numbers are modelled by exact rationals):
  - Every JS number field is modelled as a rational; numeric literals of the
    source are taken at their decimal value.
  - The source stores the bike rotation in radians; it starts at 0 and is
    only ever changed by adding or subtracting pi/2, so it is always an
    integer multiple of pi/2.  We store that integer (left turn = +1,
    right turn = -1) and use the exact values of sin and cos at those
    angles for the movement direction.
  - Comparisons of Euclidean distances in the source are embedded in exact
    squared form: for a, b nonnegative, sqrt a < b iff (0 < b and a < b^2),
    and sqrt a > b iff (b < 0 or a > b^2).  Each use site is annotated.
  - The one place where the source needs the numeric value of a square
    root (normalizing the push-out direction of a trail-segment collision,
    and offsetting the safe point by that unit vector) is modelled with
    the rational over-approximation sqrtApprox below, which satisfies
    0 <= sqrtApprox q and q <= (sqrtApprox q)^2 and (0 < q implies
    0 < sqrtApprox q).  Consequently the modelled push-out direction has
    every component of absolute value at most 1, exactly like the true
    unit vector; no theorem in this file depends on its exact magnitude.
-/

namespace Tron

/-- Ground model of THREE.Vector3: three rational coordinates. -/
structure Vec3 where
  x : ℚ
  y : ℚ
  z : ℚ
deriving DecidableEq

/-- Component-wise vector addition (THREE.Vector3.add). -/
def Vec3.add (a b : Vec3) : Vec3 := ⟨a.x + b.x, a.y + b.y, a.z + b.z⟩

/-- Component-wise vector difference (THREE.Vector3.subVectors). -/
def Vec3.sub (a b : Vec3) : Vec3 := ⟨a.x - b.x, a.y - b.y, a.z - b.z⟩

/-- Scalar multiple (THREE.Vector3.multiplyScalar). -/
def Vec3.smul (a : Vec3) (c : ℚ) : Vec3 := ⟨a.x * c, a.y * c, a.z * c⟩

/-- Dot product (THREE.Vector3.dot). -/
def Vec3.dot (a b : Vec3) : ℚ := a.x * b.x + a.y * b.y + a.z * b.z

/-- Squared Euclidean distance between two vectors; the source combines
distanceTo with a comparison, which we embed in squared form. -/
def Vec3.distSq (a b : Vec3) : ℚ := (a.sub b).dot (a.sub b)

/-- Zero vector, used as the out-of-range default for list indexing (the
source never indexes out of range at the embedded call sites). -/
def vzero : Vec3 := ⟨0, 0, 0⟩

/-- Rational over-approximation of the square root: sqrtApprox q is 0 for
q <= 0 and max 1 q otherwise.  It satisfies 0 <= sqrtApprox q,
q <= (sqrtApprox q)^2, and 0 < q implies 0 < sqrtApprox q, which is all
any theorem below uses.  See the file header for why this is sound for
the claims proved here. -/
def sqrtApprox (q : ℚ) : ℚ := if q ≤ 0 then 0 else max 1 q

/-- Math.sign on rationals: -1, 0 or 1. -/
def signQ (x : ℚ) : ℚ := if x < 0 then -1 else if 0 < x then 1 else 0

/-- THREE.MathUtils.clamp lo hi x = max lo (min hi x). -/
def clampQ (lo hi x : ℚ) : ℚ := max lo (min hi x)

/-- Exact sine at (k * pi/2). -/
def sinQ (k : ℤ) : ℚ :=
  match (k % 4).toNat with
  | 0 => 0
  | 1 => 1
  | 2 => 0
  | _ => -1

/-- Exact cosine at (k * pi/2). -/
def cosQ (k : ℤ) : ℚ :=
  match (k % 4).toNat with
  | 0 => 1
  | 1 => 0
  | 2 => -1
  | _ => 0

/-- Turn directions (types.ts, TurnDirection). -/
inductive TurnDirection where
  | left
  | right
deriving DecidableEq

/-- Damage categories (types.ts, DamageType without the null case; the
engine field holds an Option of this type, none standing for null). -/
inductive DamageType where
  | collision
  | zone
deriving DecidableEq

/-- GameConfig (types.ts): the full static tunable bundle. -/
structure GameConfig where
  bikeSpeed : ℚ
  turnDelayFrames : ℚ
  boundaryLimit : ℚ
  regenDelayFrames : ℚ
  trailWidth : ℚ
  trailHeight : ℚ
  trailMaxFrames : ℚ
  ringInitialRadius : ℚ
  ringMinRadius : ℚ
  ringShrinkTime : ℚ
  ringDepletionFrames : ℚ
  ringSpinSpeed : ℚ
  slowRegenRate : ℚ
  fastRegenRate : ℚ
  graceFrames : ℚ
  brakeMaxEnergy : ℚ
  brakeDepletionRate : ℚ
  brakeRechargeRate : ℚ
  brakeRechargeDelayFrames : ℚ
  brakeSpeedReduction : ℚ
deriving DecidableEq

/-- DEFAULT_CONFIG (config.ts). -/
def DEFAULT_CONFIG : GameConfig where
  bikeSpeed := 65 / 1000
  turnDelayFrames := 20
  boundaryLimit := 44975 / 1000
  regenDelayFrames := 60
  trailWidth := 3 / 100
  trailHeight := 45 / 100
  trailMaxFrames := 120 * 60
  ringInitialRadius := 25
  ringMinRadius := 3
  ringShrinkTime := 270 * 60
  ringDepletionFrames := 30 * 60
  ringSpinSpeed := 5 / 10000
  slowRegenRate := 3 / 100
  fastRegenRate := 2 / 10
  graceFrames := 45
  brakeMaxEnergy := 100
  brakeDepletionRate := 33 / 100
  brakeRechargeRate := 165 / 1000
  brakeRechargeDelayFrames := 60
  brakeSpeedReduction := 5 / 10

/-- BikeState (types.ts).  rotation is stored as the integer number of
quarter turns (see the file header). -/
structure BikeState where
  position : Vec3
  rotation : ℤ
  trail : List Vec3
  alive : Bool
  speed : ℚ
  lastTurnFrame : ℚ
  health : ℚ
  maxHealth : ℚ
  grindOffset : ℚ
  grindNormal : Option Vec3
  graceFramesRemaining : ℚ
  brakeEnergy : ℚ
  brakeRechargeDelay : ℚ
  isBraking : Bool
deriving DecidableEq

/-- CollisionResult (types.ts). -/
structure CollisionResult where
  hit : Bool
  normal : Option Vec3
  corrected : Vec3
deriving DecidableEq

/-- Arena (part_006): ring radius plus the two per-frame rates computed
once in the constructor. -/
structure Arena where
  currentRingRadius : ℚ
  ringShrinkPerFrame : ℚ
  ringDepletionPerFrame : ℚ
deriving DecidableEq

/-- Arena constructor (part_006 lines 9-13). -/
def Arena.init (config : GameConfig) : Arena where
  currentRingRadius := config.ringInitialRadius
  ringShrinkPerFrame := (config.ringInitialRadius - config.ringMinRadius) / config.ringShrinkTime
  ringDepletionPerFrame := 100 / config.ringDepletionFrames

/-- Arena.isPositionOutsideRing: the source compares
sqrt (x^2 + z^2) > currentRingRadius; in exact arithmetic this is
radius < 0 or x^2 + z^2 > radius^2. -/
def Arena.isPositionOutsideRing (a : Arena) (position : Vec3) : Bool :=
  a.currentRingRadius < 0 ∨ position.x ^ 2 + position.z ^ 2 > a.currentRingRadius ^ 2

/-- Arena.shrinkRing (part_006 lines 24-31). -/
def Arena.shrinkRing (config : GameConfig) (a : Arena) : Arena :=
  if a.currentRingRadius > config.ringMinRadius then
    let r := max config.ringMinRadius (a.currentRingRadius - a.ringShrinkPerFrame)
    { a with currentRingRadius := r }
  else a

/-- Arena.reset (part_006 lines 40-42). -/
def Arena.resetRadius (config : GameConfig) (a : Arena) : Arena :=
  { a with currentRingRadius := config.ringInitialRadius }

/-- BikePhysics.clampToBoundary (bike.ts lines 9-16). -/
def clampToBoundary (config : GameConfig) (pos : Vec3) : Vec3 :=
  let limit := config.boundaryLimit - 15 / 100
  ⟨max (-limit) (min limit pos.x), pos.y, max (-limit) (min limit pos.z)⟩

/-- Mutable state threaded through the trail-segment loop of
checkCollisions: the hit flag, the running best normal and the running
corrected x and z coordinates. -/
structure SegLoopState where
  hit : Bool
  normal : Option Vec3
  correctedX : ℚ
  correctedZ : ℚ
deriving DecidableEq

/-- Body of the for-loop over trail segments in BikePhysics.checkCollisions
(bike.ts lines 50-103), for loop index i.  Distance comparisons are
embedded in squared form:
  segLength < 0.01        iff  segLen2 < 1/10000
  dist < collisionDist    iff  0 < collisionDist and dist2 < collisionDist^2
  pushDir.length > 0.001  iff  1/1000000 < dist2
  newDist > currentDist   iff  newDist2 > currentDist2
and the closest point start + segDir * clamp(toStart . segDir, 0, segLength)
with segDir = u / segLength equals start + u * (clamp(toStart . u, 0, segLen2) / segLen2). -/
def segmentCheck (config : GameConfig) (position : Vec3) (trail : List Vec3)
    (wallKey : String) (grindDepthMap : List (String × ℚ)) (grindOffset : ℚ)
    (st : SegLoopState) (i : ℕ) : SegLoopState :=
  let start := trail.getD i vzero
  let stop := trail.getD (i + 1) vzero
  if i = trail.length - 1 then st else
  let u := stop.sub start
  let segLen2 := u.dot u
  if segLen2 < 1 / 10000 then st else
  let toStart := position.sub start
  let proj := clampQ 0 segLen2 (toStart.dot u)
  let closest := start.add (u.smul (proj / segLen2))
  let dVec := position.sub closest
  let dist2 := dVec.dot dVec
  let collisionDist := 15 / 100 + config.trailWidth / 2 + 2 / 100
  let grindDepth := (grindDepthMap.lookup wallKey).getD 0
  let allowPass := wallKey ≠ "" ∧ grindOffset > grindDepth + 1 / 100
  if (0 < collisionDist ∧ dist2 < collisionDist ^ 2) ∧ ¬allowPass then
    let st1 : SegLoopState := { st with hit := true }
    if 1 / 1000000 < dist2 then
      let n := dVec.smul (1 / sqrtApprox dist2)
      let safe := closest.add (n.smul (collisionDist + 1 / 100))
      let currentDist2 := (st1.correctedX - position.x) ^ 2 + (st1.correctedZ - position.z) ^ 2
      let newDist2 := (safe.x - position.x) ^ 2 + (safe.z - position.z) ^ 2
      if newDist2 > currentDist2 then
        { st1 with correctedX := safe.x, correctedZ := safe.z, normal := some n }
      else st1
    else st1
  else st

/-- Wall key for a boundary contact on the x axis: the template literal
x dollar-brace Math.sign(position.x) of the source. -/
def wallKeyX (v : ℚ) : String := if v < 0 then "x-1" else if 0 < v then "x1" else "x0"

/-- Wall key for a boundary contact on the z axis. -/
def wallKeyZ (v : ℚ) : String := if v < 0 then "z-1" else if 0 < v then "z1" else "z0"

/-- BikePhysics.checkCollisions (bike.ts lines 18-103): boundary checks on
both axes followed by the trail-segment loop.  bikeHalfWidth = 0.15,
segmentsToSkip = 10. -/
def checkCollisions (config : GameConfig) (grindDepthMap : List (String × ℚ))
    (position : Vec3) (trail : List Vec3) (bikeState : BikeState) : CollisionResult :=
  let limit := config.boundaryLimit - 15 / 100
  let hitX := |position.x| > limit
  let hitZ := |position.z| > limit
  let correctedX := if hitX then signQ position.x * limit else position.x
  let correctedZ := if hitZ then signQ position.z * limit else position.z
  let normal0 : Option Vec3 :=
    if hitZ then some ⟨0, 0, -signQ position.z⟩
    else if hitX then some ⟨-signQ position.x, 0, 0⟩
    else none
  let wallKey := if hitZ then wallKeyZ position.z else if hitX then wallKeyX position.x else ""
  let maxSegmentsToCheck := trail.length - 11
  let st0 : SegLoopState := ⟨hitX ∨ hitZ, normal0, correctedX, correctedZ⟩
  let stF := (List.range maxSegmentsToCheck).foldl
    (segmentCheck config position trail wallKey grindDepthMap bikeState.grindOffset) st0
  ⟨stF.hit, stF.normal, ⟨stF.correctedX, position.y, stF.correctedZ⟩⟩

/-- Result record of GameEngine.update (part_007 line 102). -/
structure UpdateResult where
  healthChanged : Bool
  newHealth : ℚ
deriving DecidableEq

/-- The whole mutable state of a GameEngine instance (part_007 lines 6-23):
the private fields of the class, the owned BikePhysics grind-depth map,
the owned Arena, and the constructor argument config. -/
structure EngineState where
  config : GameConfig
  bikeState : BikeState
  grindDepthMap : List (String × ℚ)
  arena : Arena
  turnQueue : List TurnDirection
  frameCount : ℚ
  lastHitFrame : ℚ
  lastDamageType : Option DamageType
  outsideRingFrames : ℚ
  trailFrames : List ℚ
  newTrailSegments : List (Vec3 × Vec3)
  segmentsToRemove : ℚ
deriving DecidableEq

/-- GameEngine.createInitialBikeState (part_007 lines 25-43). -/
def createInitialBikeState (config : GameConfig) : BikeState where
  position := vzero
  rotation := 0
  trail := [vzero]
  alive := true
  speed := config.bikeSpeed
  lastTurnFrame := 0
  health := 156
  maxHealth := 156
  grindOffset := 0
  grindNormal := none
  graceFramesRemaining := 0
  brakeEnergy := config.brakeMaxEnergy
  brakeRechargeDelay := 0
  isBraking := false

/-- GameEngine constructor (part_007 lines 19-23): fresh physics (empty
grind-depth map), fresh arena, initial bike state, and the field
initializers of lines 10-17 (in particular trailFrames = []). -/
def mkEngine (config : GameConfig) : EngineState where
  config := config
  bikeState := createInitialBikeState config
  grindDepthMap := []
  arena := Arena.init config
  turnQueue := []
  frameCount := 0
  lastHitFrame := 0
  lastDamageType := none
  outsideRingFrames := 0
  trailFrames := []
  newTrailSegments := []
  segmentsToRemove := 0

/-- GameEngine.getBikeState under value semantics.  The source returns the
spread copy of the record; reference sharing of the position vector and
the trail array is analyzed separately in the heap model near the end of
this file. -/
def getBikeState (s : EngineState) : BikeState := s.bikeState

/-- GameEngine.queueTurn (part_007 lines 57-59). -/
def queueTurn (direction : TurnDirection) (s : EngineState) : EngineState :=
  { s with turnQueue := s.turnQueue ++ [direction] }

/-- GameEngine.setBraking (part_007 lines 61-63). -/
def setBraking (b : Bool) (s : EngineState) : EngineState :=
  { s with bikeState := { s.bikeState with isBraking := b } }

/-- GameEngine.updateBrakeSystem (part_007 lines 65-100); the console.log
calls have no state effect and are omitted. -/
def updateBrakeSystem (config : GameConfig) (bs : BikeState) : BikeState :=
  if bs.isBraking = true ∧ 0 < bs.brakeEnergy then
    { bs with
        brakeEnergy := max 0 (bs.brakeEnergy - config.brakeDepletionRate),
        brakeRechargeDelay := config.brakeRechargeDelayFrames }
  else
    let bs1 := if bs.brakeEnergy ≤ 0 then { bs with isBraking := false } else bs
    if 0 < bs1.brakeRechargeDelay then
      { bs1 with brakeRechargeDelay := bs1.brakeRechargeDelay - 1 }
    else
      let e := min config.brakeMaxEnergy (bs1.brakeEnergy + config.brakeRechargeRate)
      { bs1 with brakeEnergy := e }

/-- Turn handling block of update (part_007 lines 112-133), acting on the
state after the frame counter has been incremented and the brake system
updated. -/
def turnStage (s : EngineState) : EngineState :=
  let bs := s.bikeState
  let framesSinceLastTurn := s.frameCount - bs.lastTurnFrame
  let canTurn := framesSinceLastTurn ≥ s.config.turnDelayFrames
  match s.turnQueue with
  | [] => s
  | turn :: rest =>
    if canTurn then
      let segs :=
        if bs.trail ≠ [] then
          s.newTrailSegments ++ [(bs.trail.getLastD vzero, bs.position)]
        else s.newTrailSegments
      let rotation1 :=
        match turn with
        | TurnDirection.left => bs.rotation + 1
        | TurnDirection.right => bs.rotation - 1
      { s with
          bikeState := { bs with
            trail := bs.trail ++ [bs.position],
            rotation := rotation1,
            lastTurnFrame := s.frameCount },
          turnQueue := rest,
          trailFrames := s.trailFrames ++ [s.frameCount],
          newTrailSegments := segs }
    else s

/-- Forward direction from the rotation (part_007 lines 136-140):
(sin rotation, 0, cos rotation) at the exact quarter-turn angle. -/
def moveDirection (bs : BikeState) : Vec3 := ⟨sinQ bs.rotation, 0, cosQ bs.rotation⟩

/-- Effective speed with the progressive brake reduction
(part_007 lines 142-157). -/
def currentSpeedOf (config : GameConfig) (bs : BikeState) : ℚ :=
  if bs.isBraking = true ∧ 0 < bs.brakeEnergy then
    let energyUsed := config.brakeMaxEnergy - bs.brakeEnergy
    let brakeProgress := energyUsed / config.brakeMaxEnergy
    let speedMultiplier := 1 - brakeProgress * (1 - config.brakeSpeedReduction)
    bs.speed * speedMultiplier
  else bs.speed

/-- Candidate position for this frame (part_007 lines 159-161). -/
def potentialPosition (s : EngineState) : Vec3 :=
  (s.bikeState.position).add ((moveDirection s.bikeState).smul (currentSpeedOf s.config s.bikeState))

/-- The collision result computed by update (part_007 lines 164-168): the
candidate is appended to the trail as a phantom final point. -/
def collisionOf (s : EngineState) : CollisionResult :=
  checkCollisions s.config s.grindDepthMap (potentialPosition s)
    (s.bikeState.trail ++ [potentialPosition s]) s.bikeState

/-- Collision-damage block of update (part_007 lines 170-197): boundary
clamp of the corrected position, head-on damage or grinding, the grind
pushback, and the position write.  Returns the state plus the headOn
flag.  Note the source mutates its direction vector in place when
computing the candidate position (direction.multiplyScalar at line 160),
so the head-on test at line 178 dots the normal with the direction
ALREADY SCALED by the effective speed; the model reproduces that. -/
def collisionStage (s : EngineState) : EngineState × Bool :=
  let bs := s.bikeState
  let col := collisionOf s
  let newPosition0 := clampToBoundary s.config col.corrected
  match col.hit, col.normal with
  | true, some n =>
    let push := ((moveDirection bs).smul (currentSpeedOf s.config bs)).dot n
    if push < 0 then
      let g := min (bs.grindOffset + 2 / 100) (3 / 10)
      let newPosition := newPosition0.add (n.smul (-g))
      ({ s with
          bikeState := { bs with
            grindOffset := g,
            health := max 0 (bs.health - 12 / 10),
            position := newPosition },
          lastHitFrame := s.frameCount,
          lastDamageType := some DamageType.collision }, true)
    else
      let g := min (bs.grindOffset + 1 / 100) (3 / 10)
      let newPosition := newPosition0.add (n.smul (-g))
      ({ s with
          bikeState := { bs with grindOffset := g, position := newPosition } }, false)
  | _, _ =>
    ({ s with bikeState := { bs with grindOffset := 0, position := newPosition0 } }, false)

/-- Zone-damage block of update (part_007 lines 199-209).  Returns the
state plus the isOutsideRing flag. -/
def zoneStage (s : EngineState) : EngineState × Bool :=
  let bs := s.bikeState
  if s.arena.isPositionOutsideRing bs.position then
    ({ s with
        outsideRingFrames := s.outsideRingFrames + 1,
        bikeState := { bs with health := max 0 (bs.health - s.arena.ringDepletionPerFrame) },
        lastDamageType := some DamageType.zone }, true)
  else
    ({ s with outsideRingFrames := 0 }, false)

/-- Regeneration block of update (part_007 lines 211-217).  Returns the
state plus a flag recording whether regeneration was applied. -/
def regenStage (headOn isOutsideRing : Bool) (s : EngineState) : EngineState × Bool :=
  let bs := s.bikeState
  let framesSinceHit := s.frameCount - s.lastHitFrame
  if headOn = false ∧ isOutsideRing = false ∧ framesSinceHit > s.config.regenDelayFrames ∧
      bs.health < bs.maxHealth then
    let regenRate :=
      if s.lastDamageType = some DamageType.zone then s.config.slowRegenRate
      else s.config.fastRegenRate
    ({ s with bikeState := { bs with health := min bs.maxHealth (bs.health + regenRate) } }, true)
  else (s, false)

/-- Trail-growth block of update (part_007 lines 222-233):
distanceThreshold = 0.3; the distance comparison is embedded squared. -/
def trailGrowthStage (s : EngineState) : EngineState :=
  let bs := s.bikeState
  let newPosition := bs.position
  if bs.trail = [] ∨ Vec3.distSq newPosition (bs.trail.getLastD vzero) > (3 / 10) ^ 2 then
    let segs :=
      if bs.trail ≠ [] then
        s.newTrailSegments ++ [(bs.trail.getLastD vzero, newPosition)]
      else s.newTrailSegments
    { s with
        bikeState := { bs with trail := bs.trail ++ [newPosition] },
        trailFrames := s.trailFrames ++ [s.frameCount],
        newTrailSegments := segs }
  else s

/-- Age-based trail trim loop (part_007 lines 238-245): while the oldest
recorded frame is older than trailMaxFrames, shift both lists and count
a removed segment. -/
def trimAged (config : GameConfig) (frameCount : ℚ) :
    List ℚ → List Vec3 → ℚ → List ℚ × List Vec3 × ℚ
  | [], trail, removed => ([], trail, removed)
  | f :: fs, trail, removed =>
    if frameCount - f > config.trailMaxFrames then
      trimAged config frameCount fs trail.tail (removed + 1)
    else (f :: fs, trail, removed)

/-- Hard-cap trail trim loop (part_007 lines 248-256): while the trail is
longer than the cap, shift both lists and count a removed segment.  The
JS loop would not terminate on an empty trail with a negative cap; the
model returns the empty trail in that (unreachable) situation. -/
def trimCap (maxAllowed : ℚ) :
    List Vec3 → List ℚ → ℚ → List Vec3 × List ℚ × ℚ
  | [], frames, removed => ([], frames, removed)
  | p :: rest, frames, removed =>
    if ((p :: rest).length : ℚ) > maxAllowed then
      trimCap maxAllowed rest frames.tail (removed + 1)
    else (p :: rest, frames, removed)

/-- Trail-eviction block of update (part_007 lines 235-256): age trim then
the generous hard cap ceil(trailMaxFrames / 60) * 4. -/
def trimStage (s : EngineState) : EngineState :=
  let bs := s.bikeState
  let (frames1, trail1, removed1) :=
    trimAged s.config s.frameCount s.trailFrames bs.trail s.segmentsToRemove
  let maxAllowed : ℚ := ((⌈s.config.trailMaxFrames / 60⌉ : ℤ) : ℚ) * 4
  let (trail2, frames2, removed2) := trimCap maxAllowed trail1 frames1 removed1
  { s with
      bikeState := { bs with trail := trail2 },
      trailFrames := frames2,
      segmentsToRemove := removed2 }

/-- Grace-period block of update (part_007 lines 266-289). -/
def graceStage (headOn isOutsideRing : Bool) (s : EngineState) : EngineState :=
  let bs := s.bikeState
  if bs.health ≤ 0 then
    let bs1 : BikeState :=
      if bs.graceFramesRemaining ≤ 0 then
        { bs with graceFramesRemaining := s.config.graceFrames }
      else
        let g1 := bs.graceFramesRemaining - 1
        let g2 := if headOn = true ∨ isOutsideRing = true then g1 - 2 else g1
        { bs with graceFramesRemaining := g2 }
    let bs2 := if bs1.graceFramesRemaining ≤ 0 then { bs1 with alive := false } else bs1
    { s with bikeState := bs2 }
  else
    { s with bikeState := { bs with graceFramesRemaining := 0 } }

/-- Output of one alive frame: the final state and the three flags
(headOn, isOutsideRing, regenApplied) that update combines into the
healthChanged result. -/
structure StepOut where
  state : EngineState
  headOn : Bool
  isOutsideRing : Bool
  regenApplied : Bool

/-- The body of update after the early liveness return (part_007 lines
109-294), acting on the state with the frame counter already bumped. -/
def updateAlive (s : EngineState) : StepOut :=
  let s2 := { s with bikeState := updateBrakeSystem s.config s.bikeState }
  let s3 := turnStage s2
  let c := collisionStage s3
  let headOn := c.2
  let z := zoneStage c.1
  let isOutsideRing := z.2
  let r := regenStage headOn isOutsideRing z.1
  let regenApplied := r.2
  let s6 := r.1
  let s7 := { s6 with arena := Arena.shrinkRing s6.config s6.arena }
  let s8 := trailGrowthStage s7
  let s9 := trimStage s8
  let s10 := graceStage headOn isOutsideRing s9
  let bsF := s10.bikeState
  let s11 := { s10 with bikeState := { bsF with health := max (-10) bsF.health } }
  ⟨s11, headOn, isOutsideRing, regenApplied⟩

/-- GameEngine.update (part_007 lines 102-295). -/
def update (s : EngineState) : EngineState × UpdateResult :=
  let s1 := { s with frameCount := s.frameCount + 1 }
  if s1.bikeState.alive = false then
    (s1, ⟨false, s1.bikeState.health⟩)
  else
    let o := updateAlive s1
    (o.state, ⟨o.headOn || o.isOutsideRing || o.regenApplied, o.state.bikeState.health⟩)

/-- Iterated update, ignoring the per-frame results. -/
def updateN : ℕ → EngineState → EngineState
  | 0, s => s
  | n + 1, s => updateN n (update s).1

/-- GameEngine.reset (part_007 lines 297-309).  Note trailFrames is reset
to [0], while the constructor initializer leaves it []. -/
def reset (s : EngineState) : EngineState where
  config := s.config
  bikeState := createInitialBikeState s.config
  grindDepthMap := []
  arena := Arena.resetRadius s.config s.arena
  turnQueue := []
  frameCount := 0
  lastHitFrame := 0
  lastDamageType := none
  outsideRingFrames := 0
  trailFrames := [0]
  newTrailSegments := []
  segmentsToRemove := 0

/-- GameEngine.getNewTrailSegments clears the pending-segments queue after
returning it (part_007 lines 315-319); this is the state effect. -/
def drainNewTrailSegments (s : EngineState) : EngineState :=
  { s with newTrailSegments := [] }

/-- GameEngine.getSegmentsToRemove resets the counter after returning it
(part_007 lines 321-325); this is the state effect. -/
def drainSegmentsToRemove (s : EngineState) : EngineState :=
  { s with segmentsToRemove := 0 }

/-- GameEngine.getTrailLength (part_007 lines 327-329). -/
def getTrailLength (s : EngineState) : ℕ := s.bikeState.trail.length

/-- The reachable engine states for a fixed constructor config: the fresh
engine, closed under every public mutating entry point. -/
inductive Reachable (cfg : GameConfig) : EngineState → Prop where
  | base : Reachable cfg (mkEngine cfg)
  | step {s} : Reachable cfg s → Reachable cfg (update s).1
  | turn {s} (d : TurnDirection) : Reachable cfg s → Reachable cfg (queueTurn d s)
  | brake {s} (b : Bool) : Reachable cfg s → Reachable cfg (setBraking b s)
  | reinit {s} : Reachable cfg s → Reachable cfg (reset s)
  | drainSegs {s} : Reachable cfg s → Reachable cfg (drainNewTrailSegments s)
  | drainCount {s} : Reachable cfg s → Reachable cfg (drainSegmentsToRemove s)

/-- Config used for the boundary counterexample: a fast bike and a small
arena so the wall is reached and ground against within a few frames.
All rates that the run does not exercise are inert. -/
def cfgGrind : GameConfig where
  bikeSpeed := 5
  turnDelayFrames := 1000
  boundaryLimit := 1
  regenDelayFrames := 1000
  trailWidth := 3 / 100
  trailHeight := 45 / 100
  trailMaxFrames := 10000
  ringInitialRadius := 1000
  ringMinRadius := 1000
  ringShrinkTime := 1
  ringDepletionFrames := 100
  ringSpinSpeed := 0
  slowRegenRate := 0
  fastRegenRate := 0
  graceFrames := 1000
  brakeMaxEnergy := 100
  brakeDepletionRate := 1
  brakeRechargeRate := 0
  brakeRechargeDelayFrames := 0
  brakeSpeedReduction := 1

/-- Config used for the dead-state counterexample: the whole plane is
outside the ring (negative radius) and the depletion rate kills the
stationary bike in two frames, with no grace period. -/
def cfgDeath : GameConfig where
  bikeSpeed := 0
  turnDelayFrames := 1000
  boundaryLimit := 1
  regenDelayFrames := 1000
  trailWidth := 3 / 100
  trailHeight := 45 / 100
  trailMaxFrames := 10000
  ringInitialRadius := -1
  ringMinRadius := -1
  ringShrinkTime := 1
  ringDepletionFrames := 1
  ringSpinSpeed := 0
  slowRegenRate := 0
  fastRegenRate := 0
  graceFrames := 0
  brakeMaxEnergy := 100
  brakeDepletionRate := 1
  brakeRechargeRate := 0
  brakeRechargeDelayFrames := 0
  brakeSpeedReduction := 1

/-- Config used for the zone-damage witness: everything is outside the
ring and each outside frame costs 50 health; the large grace pool keeps
the bike alive. -/
def cfgZone : GameConfig where
  bikeSpeed := 0
  turnDelayFrames := 1000
  boundaryLimit := 1
  regenDelayFrames := 1000
  trailWidth := 3 / 100
  trailHeight := 45 / 100
  trailMaxFrames := 10000
  ringInitialRadius := -1
  ringMinRadius := -1
  ringShrinkTime := 1
  ringDepletionFrames := 2
  ringSpinSpeed := 0
  slowRegenRate := 0
  fastRegenRate := 0
  graceFrames := 1000
  brakeMaxEnergy := 100
  brakeDepletionRate := 1
  brakeRechargeRate := 0
  brakeRechargeDelayFrames := 0
  brakeSpeedReduction := 1

/-- Config used for the turn witness: a turn becomes eligible on the very
first frame. -/
def cfgTurn : GameConfig where
  bikeSpeed := 1
  turnDelayFrames := 1
  boundaryLimit := 100
  regenDelayFrames := 1000
  trailWidth := 3 / 100
  trailHeight := 45 / 100
  trailMaxFrames := 10000
  ringInitialRadius := 1000
  ringMinRadius := 1000
  ringShrinkTime := 1
  ringDepletionFrames := 100
  ringSpinSpeed := 0
  slowRegenRate := 0
  fastRegenRate := 0
  graceFrames := 1000
  brakeMaxEnergy := 100
  brakeDepletionRate := 1
  brakeRechargeRate := 0
  brakeRechargeDelayFrames := 0
  brakeSpeedReduction := 1

/-! Heap model for claim C9.  The pure embedding above uses value
semantics, which cannot express aliasing, so the object-reference
behavior of the source getter
  public getBikeState(): BikeState { return { ...this.bikeState }; }
is modelled here explicitly: a JS object spread copies field values, and
for the position vector and the trail array the stored value is a
reference into the heap, so the copy shares those references with the
engine-internal record. -/

/-- BikeState as stored on the JS heap: position and trail hold references
(heap addresses); every other field is a primitive copied by value by
the spread.  grindNormal is an object reference or null. -/
structure HeapBikeState where
  position : ℕ
  rotation : ℤ
  trail : ℕ
  alive : Bool
  speed : ℚ
  lastTurnFrame : ℚ
  health : ℚ
  maxHealth : ℚ
  grindOffset : ℚ
  grindNormal : Option ℕ
  graceFramesRemaining : ℚ
  brakeEnergy : ℚ
  brakeRechargeDelay : ℚ
  isBraking : Bool

/-- The relevant part of the JS heap: vector objects and trail arrays,
addressed by natural numbers. -/
structure JSHeap where
  vecs : ℕ → Vec3
  arrs : ℕ → List Vec3

/-- An engine together with the heap holding its position vector and trail
array. -/
structure RefEngine where
  heap : JSHeap
  bikeState : HeapBikeState

/-- Freshly constructed engine under reference semantics: one position
vector at address 0 and one trail array at address 0 holding the initial
waypoint (createInitialBikeState, part_007 lines 25-43). -/
def mkRefEngine : RefEngine where
  heap := { vecs := fun _ => vzero, arrs := fun _ => [vzero] }
  bikeState :=
    { position := 0
      rotation := 0
      trail := 0
      alive := true
      speed := DEFAULT_CONFIG.bikeSpeed
      lastTurnFrame := 0
      health := 156
      maxHealth := 156
      grindOffset := 0
      grindNormal := none
      graceFramesRemaining := 0
      brakeEnergy := DEFAULT_CONFIG.brakeMaxEnergy
      brakeRechargeDelay := 0
      isBraking := false }

/-- getBikeState (part_007 lines 45-47) under reference semantics: the
spread builds a new record from the field values of the old one, so the
position and trail fields of the result are the same heap addresses. -/
def getBikeStateRef (e : RefEngine) : HeapBikeState := e.bikeState

/-- The presentation layer mutating the trail array it received, through
the reference: copy.trail.push(v). -/
def pushTrailExternally (e : RefEngine) (r : ℕ) (v : Vec3) : RefEngine :=
  { e with heap := { e.heap with
      arrs := Function.update e.heap.arrs r (e.heap.arrs r ++ [v]) } }

/-- GameEngine.getTrailLength (part_007 lines 327-329) under reference
semantics: the engine reads its own trail array through its stored
address. -/
def getTrailLengthRef (e : RefEngine) : ℕ := (e.heap.arrs e.bikeState.trail).length

attribute [local semireducible] Rat.add Rat.sub Rat.mul Rat.inv

section StageLemmas

variable (s : EngineState)

theorem turnStage_config : (turnStage s).config = s.config := by
  unfold turnStage
  split
  · rfl
  · dsimp only
    split <;> rfl

theorem collisionStage_config : (collisionStage s).1.config = s.config := by
  unfold collisionStage
  dsimp only
  split <;> (try split) <;> rfl

theorem zoneStage_config : (zoneStage s).1.config = s.config := by
  unfold zoneStage
  dsimp only
  split <;> rfl

theorem regenStage_config (headOn isOutsideRing : Bool) :
    (regenStage headOn isOutsideRing s).1.config = s.config := by
  unfold regenStage
  dsimp only
  split <;> rfl

theorem trailGrowthStage_config : (trailGrowthStage s).config = s.config := by
  unfold trailGrowthStage
  dsimp only
  split <;> rfl

theorem trimStage_config : (trimStage s).config = s.config := by
  unfold trimStage
  rfl

theorem graceStage_config (headOn isOutsideRing : Bool) :
    (graceStage headOn isOutsideRing s).config = s.config := by
  unfold graceStage
  dsimp only
  split <;> (try split) <;> rfl

theorem update_config : (update s).1.config = s.config := by
  unfold update updateAlive
  dsimp only
  split
  · rfl
  · simp only [graceStage_config, trimStage_config, trailGrowthStage_config,
      regenStage_config, zoneStage_config, collisionStage_config, turnStage_config]

theorem updateBrakeSystem_preserves (cfg : GameConfig) (bs : BikeState) :
    (updateBrakeSystem cfg bs).position = bs.position ∧
    (updateBrakeSystem cfg bs).rotation = bs.rotation ∧
    (updateBrakeSystem cfg bs).trail = bs.trail ∧
    (updateBrakeSystem cfg bs).alive = bs.alive ∧
    (updateBrakeSystem cfg bs).speed = bs.speed ∧
    (updateBrakeSystem cfg bs).lastTurnFrame = bs.lastTurnFrame ∧
    (updateBrakeSystem cfg bs).health = bs.health ∧
    (updateBrakeSystem cfg bs).maxHealth = bs.maxHealth ∧
    (updateBrakeSystem cfg bs).grindOffset = bs.grindOffset ∧
    (updateBrakeSystem cfg bs).grindNormal = bs.grindNormal ∧
    (updateBrakeSystem cfg bs).graceFramesRemaining = bs.graceFramesRemaining := by
  unfold updateBrakeSystem
  dsimp only
  split <;> (try split) <;> (try split) <;> and_intros <;> rfl

theorem turnStage_preserves :
    (turnStage s).grindDepthMap = s.grindDepthMap ∧
    (turnStage s).arena = s.arena ∧
    (turnStage s).frameCount = s.frameCount ∧
    (turnStage s).lastHitFrame = s.lastHitFrame ∧
    (turnStage s).lastDamageType = s.lastDamageType ∧
    (turnStage s).outsideRingFrames = s.outsideRingFrames ∧
    (turnStage s).segmentsToRemove = s.segmentsToRemove ∧
    (turnStage s).bikeState.position = s.bikeState.position ∧
    (turnStage s).bikeState.alive = s.bikeState.alive ∧
    (turnStage s).bikeState.speed = s.bikeState.speed ∧
    (turnStage s).bikeState.health = s.bikeState.health ∧
    (turnStage s).bikeState.maxHealth = s.bikeState.maxHealth ∧
    (turnStage s).bikeState.grindOffset = s.bikeState.grindOffset ∧
    (turnStage s).bikeState.grindNormal = s.bikeState.grindNormal ∧
    (turnStage s).bikeState.graceFramesRemaining = s.bikeState.graceFramesRemaining ∧
    (turnStage s).bikeState.brakeEnergy = s.bikeState.brakeEnergy ∧
    (turnStage s).bikeState.brakeRechargeDelay = s.bikeState.brakeRechargeDelay ∧
    (turnStage s).bikeState.isBraking = s.bikeState.isBraking := by
  unfold turnStage
  dsimp only
  split
  · and_intros <;> rfl
  · split <;> and_intros <;> rfl

theorem collisionStage_preserves :
    (collisionStage s).1.grindDepthMap = s.grindDepthMap ∧
    (collisionStage s).1.arena = s.arena ∧
    (collisionStage s).1.turnQueue = s.turnQueue ∧
    (collisionStage s).1.frameCount = s.frameCount ∧
    (collisionStage s).1.outsideRingFrames = s.outsideRingFrames ∧
    (collisionStage s).1.trailFrames = s.trailFrames ∧
    (collisionStage s).1.newTrailSegments = s.newTrailSegments ∧
    (collisionStage s).1.segmentsToRemove = s.segmentsToRemove ∧
    (collisionStage s).1.bikeState.rotation = s.bikeState.rotation ∧
    (collisionStage s).1.bikeState.trail = s.bikeState.trail ∧
    (collisionStage s).1.bikeState.alive = s.bikeState.alive ∧
    (collisionStage s).1.bikeState.speed = s.bikeState.speed ∧
    (collisionStage s).1.bikeState.lastTurnFrame = s.bikeState.lastTurnFrame ∧
    (collisionStage s).1.bikeState.maxHealth = s.bikeState.maxHealth ∧
    (collisionStage s).1.bikeState.grindNormal = s.bikeState.grindNormal ∧
    (collisionStage s).1.bikeState.graceFramesRemaining = s.bikeState.graceFramesRemaining ∧
    (collisionStage s).1.bikeState.brakeEnergy = s.bikeState.brakeEnergy ∧
    (collisionStage s).1.bikeState.brakeRechargeDelay = s.bikeState.brakeRechargeDelay ∧
    (collisionStage s).1.bikeState.isBraking = s.bikeState.isBraking := by
  unfold collisionStage
  dsimp only
  split <;> (try split) <;> and_intros <;> rfl

theorem zoneStage_preserves :
    (zoneStage s).1.grindDepthMap = s.grindDepthMap ∧
    (zoneStage s).1.arena = s.arena ∧
    (zoneStage s).1.turnQueue = s.turnQueue ∧
    (zoneStage s).1.frameCount = s.frameCount ∧
    (zoneStage s).1.lastHitFrame = s.lastHitFrame ∧
    (zoneStage s).1.trailFrames = s.trailFrames ∧
    (zoneStage s).1.newTrailSegments = s.newTrailSegments ∧
    (zoneStage s).1.segmentsToRemove = s.segmentsToRemove ∧
    (zoneStage s).1.bikeState.position = s.bikeState.position ∧
    (zoneStage s).1.bikeState.rotation = s.bikeState.rotation ∧
    (zoneStage s).1.bikeState.trail = s.bikeState.trail ∧
    (zoneStage s).1.bikeState.alive = s.bikeState.alive ∧
    (zoneStage s).1.bikeState.speed = s.bikeState.speed ∧
    (zoneStage s).1.bikeState.lastTurnFrame = s.bikeState.lastTurnFrame ∧
    (zoneStage s).1.bikeState.maxHealth = s.bikeState.maxHealth ∧
    (zoneStage s).1.bikeState.grindOffset = s.bikeState.grindOffset ∧
    (zoneStage s).1.bikeState.grindNormal = s.bikeState.grindNormal ∧
    (zoneStage s).1.bikeState.graceFramesRemaining = s.bikeState.graceFramesRemaining ∧
    (zoneStage s).1.bikeState.brakeEnergy = s.bikeState.brakeEnergy ∧
    (zoneStage s).1.bikeState.brakeRechargeDelay = s.bikeState.brakeRechargeDelay ∧
    (zoneStage s).1.bikeState.isBraking = s.bikeState.isBraking := by
  unfold zoneStage
  dsimp only
  split <;> and_intros <;> rfl

theorem regenStage_preserves (headOn isOutsideRing : Bool) :
    (regenStage headOn isOutsideRing s).1.grindDepthMap = s.grindDepthMap ∧
    (regenStage headOn isOutsideRing s).1.arena = s.arena ∧
    (regenStage headOn isOutsideRing s).1.turnQueue = s.turnQueue ∧
    (regenStage headOn isOutsideRing s).1.frameCount = s.frameCount ∧
    (regenStage headOn isOutsideRing s).1.lastHitFrame = s.lastHitFrame ∧
    (regenStage headOn isOutsideRing s).1.lastDamageType = s.lastDamageType ∧
    (regenStage headOn isOutsideRing s).1.outsideRingFrames = s.outsideRingFrames ∧
    (regenStage headOn isOutsideRing s).1.trailFrames = s.trailFrames ∧
    (regenStage headOn isOutsideRing s).1.newTrailSegments = s.newTrailSegments ∧
    (regenStage headOn isOutsideRing s).1.segmentsToRemove = s.segmentsToRemove ∧
    (regenStage headOn isOutsideRing s).1.bikeState.position = s.bikeState.position ∧
    (regenStage headOn isOutsideRing s).1.bikeState.rotation = s.bikeState.rotation ∧
    (regenStage headOn isOutsideRing s).1.bikeState.trail = s.bikeState.trail ∧
    (regenStage headOn isOutsideRing s).1.bikeState.alive = s.bikeState.alive ∧
    (regenStage headOn isOutsideRing s).1.bikeState.speed = s.bikeState.speed ∧
    (regenStage headOn isOutsideRing s).1.bikeState.lastTurnFrame = s.bikeState.lastTurnFrame ∧
    (regenStage headOn isOutsideRing s).1.bikeState.maxHealth = s.bikeState.maxHealth ∧
    (regenStage headOn isOutsideRing s).1.bikeState.grindOffset = s.bikeState.grindOffset ∧
    (regenStage headOn isOutsideRing s).1.bikeState.grindNormal = s.bikeState.grindNormal ∧
    (regenStage headOn isOutsideRing s).1.bikeState.graceFramesRemaining
      = s.bikeState.graceFramesRemaining ∧
    (regenStage headOn isOutsideRing s).1.bikeState.brakeEnergy = s.bikeState.brakeEnergy ∧
    (regenStage headOn isOutsideRing s).1.bikeState.brakeRechargeDelay
      = s.bikeState.brakeRechargeDelay ∧
    (regenStage headOn isOutsideRing s).1.bikeState.isBraking = s.bikeState.isBraking := by
  unfold regenStage
  dsimp only
  split <;> and_intros <;> rfl

theorem trailGrowthStage_preserves :
    (trailGrowthStage s).grindDepthMap = s.grindDepthMap ∧
    (trailGrowthStage s).arena = s.arena ∧
    (trailGrowthStage s).turnQueue = s.turnQueue ∧
    (trailGrowthStage s).frameCount = s.frameCount ∧
    (trailGrowthStage s).lastHitFrame = s.lastHitFrame ∧
    (trailGrowthStage s).lastDamageType = s.lastDamageType ∧
    (trailGrowthStage s).outsideRingFrames = s.outsideRingFrames ∧
    (trailGrowthStage s).segmentsToRemove = s.segmentsToRemove ∧
    (trailGrowthStage s).bikeState.position = s.bikeState.position ∧
    (trailGrowthStage s).bikeState.rotation = s.bikeState.rotation ∧
    (trailGrowthStage s).bikeState.alive = s.bikeState.alive ∧
    (trailGrowthStage s).bikeState.speed = s.bikeState.speed ∧
    (trailGrowthStage s).bikeState.lastTurnFrame = s.bikeState.lastTurnFrame ∧
    (trailGrowthStage s).bikeState.health = s.bikeState.health ∧
    (trailGrowthStage s).bikeState.maxHealth = s.bikeState.maxHealth ∧
    (trailGrowthStage s).bikeState.grindOffset = s.bikeState.grindOffset ∧
    (trailGrowthStage s).bikeState.grindNormal = s.bikeState.grindNormal ∧
    (trailGrowthStage s).bikeState.graceFramesRemaining = s.bikeState.graceFramesRemaining ∧
    (trailGrowthStage s).bikeState.brakeEnergy = s.bikeState.brakeEnergy ∧
    (trailGrowthStage s).bikeState.brakeRechargeDelay = s.bikeState.brakeRechargeDelay ∧
    (trailGrowthStage s).bikeState.isBraking = s.bikeState.isBraking := by
  unfold trailGrowthStage
  dsimp only
  split <;> and_intros <;> rfl

theorem trimStage_preserves :
    (trimStage s).grindDepthMap = s.grindDepthMap ∧
    (trimStage s).arena = s.arena ∧
    (trimStage s).turnQueue = s.turnQueue ∧
    (trimStage s).frameCount = s.frameCount ∧
    (trimStage s).lastHitFrame = s.lastHitFrame ∧
    (trimStage s).lastDamageType = s.lastDamageType ∧
    (trimStage s).outsideRingFrames = s.outsideRingFrames ∧
    (trimStage s).newTrailSegments = s.newTrailSegments ∧
    (trimStage s).bikeState.position = s.bikeState.position ∧
    (trimStage s).bikeState.rotation = s.bikeState.rotation ∧
    (trimStage s).bikeState.alive = s.bikeState.alive ∧
    (trimStage s).bikeState.speed = s.bikeState.speed ∧
    (trimStage s).bikeState.lastTurnFrame = s.bikeState.lastTurnFrame ∧
    (trimStage s).bikeState.health = s.bikeState.health ∧
    (trimStage s).bikeState.maxHealth = s.bikeState.maxHealth ∧
    (trimStage s).bikeState.grindOffset = s.bikeState.grindOffset ∧
    (trimStage s).bikeState.grindNormal = s.bikeState.grindNormal ∧
    (trimStage s).bikeState.graceFramesRemaining = s.bikeState.graceFramesRemaining ∧
    (trimStage s).bikeState.brakeEnergy = s.bikeState.brakeEnergy ∧
    (trimStage s).bikeState.brakeRechargeDelay = s.bikeState.brakeRechargeDelay ∧
    (trimStage s).bikeState.isBraking = s.bikeState.isBraking := by
  unfold trimStage
  dsimp only
  and_intros <;> rfl

theorem graceStage_preserves (headOn isOutsideRing : Bool) :
    (graceStage headOn isOutsideRing s).grindDepthMap = s.grindDepthMap ∧
    (graceStage headOn isOutsideRing s).arena = s.arena ∧
    (graceStage headOn isOutsideRing s).turnQueue = s.turnQueue ∧
    (graceStage headOn isOutsideRing s).frameCount = s.frameCount ∧
    (graceStage headOn isOutsideRing s).lastHitFrame = s.lastHitFrame ∧
    (graceStage headOn isOutsideRing s).lastDamageType = s.lastDamageType ∧
    (graceStage headOn isOutsideRing s).outsideRingFrames = s.outsideRingFrames ∧
    (graceStage headOn isOutsideRing s).trailFrames = s.trailFrames ∧
    (graceStage headOn isOutsideRing s).newTrailSegments = s.newTrailSegments ∧
    (graceStage headOn isOutsideRing s).segmentsToRemove = s.segmentsToRemove ∧
    (graceStage headOn isOutsideRing s).bikeState.position = s.bikeState.position ∧
    (graceStage headOn isOutsideRing s).bikeState.rotation = s.bikeState.rotation ∧
    (graceStage headOn isOutsideRing s).bikeState.trail = s.bikeState.trail ∧
    (graceStage headOn isOutsideRing s).bikeState.speed = s.bikeState.speed ∧
    (graceStage headOn isOutsideRing s).bikeState.lastTurnFrame = s.bikeState.lastTurnFrame ∧
    (graceStage headOn isOutsideRing s).bikeState.health = s.bikeState.health ∧
    (graceStage headOn isOutsideRing s).bikeState.maxHealth = s.bikeState.maxHealth ∧
    (graceStage headOn isOutsideRing s).bikeState.grindOffset = s.bikeState.grindOffset ∧
    (graceStage headOn isOutsideRing s).bikeState.grindNormal = s.bikeState.grindNormal ∧
    (graceStage headOn isOutsideRing s).bikeState.brakeEnergy = s.bikeState.brakeEnergy ∧
    (graceStage headOn isOutsideRing s).bikeState.brakeRechargeDelay
      = s.bikeState.brakeRechargeDelay ∧
    (graceStage headOn isOutsideRing s).bikeState.isBraking = s.bikeState.isBraking := by
  unfold graceStage
  dsimp only
  split <;> (repeat' split) <;> and_intros <;> rfl

theorem shrinkRing_rates (cfg : GameConfig) (a : Arena) :
    (Arena.shrinkRing cfg a).ringShrinkPerFrame = a.ringShrinkPerFrame ∧
    (Arena.shrinkRing cfg a).ringDepletionPerFrame = a.ringDepletionPerFrame := by
  unfold Arena.shrinkRing
  split <;> exact ⟨rfl, rfl⟩

theorem update_arena_rates :
    (update s).1.arena.ringShrinkPerFrame = s.arena.ringShrinkPerFrame ∧
    (update s).1.arena.ringDepletionPerFrame = s.arena.ringDepletionPerFrame := by
  unfold update updateAlive
  dsimp only
  split
  · exact ⟨rfl, rfl⟩
  · constructor <;>
      simp only [graceStage_preserves, trimStage_preserves, trailGrowthStage_preserves,
        shrinkRing_rates, regenStage_preserves, zoneStage_preserves, collisionStage_preserves,
        turnStage_preserves]

theorem update_maxHealth : (update s).1.bikeState.maxHealth = s.bikeState.maxHealth := by
  unfold update updateAlive
  dsimp only
  split
  · rfl
  · simp only [graceStage_preserves, trimStage_preserves, trailGrowthStage_preserves,
      regenStage_preserves, zoneStage_preserves, collisionStage_preserves,
      turnStage_preserves, updateBrakeSystem_preserves]

end StageLemmas

/-- Configuration-derived facts that hold in every reachable state: the
stored config is the constructor config, the arena per-frame rates keep
their constructor values, and maxHealth keeps its hard-coded value 156. -/
theorem reachable_config {cfg : GameConfig} {s : EngineState} (h : Reachable cfg s) :
    s.config = cfg ∧
    s.arena.ringShrinkPerFrame = (cfg.ringInitialRadius - cfg.ringMinRadius) / cfg.ringShrinkTime ∧
    s.arena.ringDepletionPerFrame = 100 / cfg.ringDepletionFrames ∧
    s.bikeState.maxHealth = 156 := by
  induction h with
  | base => exact ⟨rfl, rfl, rfl, rfl⟩
  | step _ ih =>
    obtain ⟨hc, hs, hd, hm⟩ := ih
    exact ⟨(update_config _).trans hc, (update_arena_rates _).1.trans hs,
      (update_arena_rates _).2.trans hd, (update_maxHealth _).trans hm⟩
  | turn d _ ih => exact ih
  | brake b _ ih => exact ih
  | reinit _ ih =>
    obtain ⟨hc, hs, hd, _⟩ := ih
    exact ⟨hc, hs, hd, rfl⟩
  | drainSegs _ ih => exact ih
  | drainCount _ ih => exact ih

theorem update_dead (s : EngineState) (h : s.bikeState.alive = false) :
    update s = ({ s with frameCount := s.frameCount + 1 },
      ⟨false, s.bikeState.health⟩) := by
  unfold update
  dsimp only
  split
  · rfl
  · rename_i hc
    exact absurd h hc

/-- Rewriting the frame counter of an engine state by an equal value. -/
theorem engine_fc_congr (s : EngineState) {a b : ℚ} (h : a = b) :
    ({ s with frameCount := a } : EngineState) = { s with frameCount := b } := by
  rw [h]

theorem updateN_dead (n : ℕ) (s : EngineState) (h : s.bikeState.alive = false) :
    updateN n s = { s with frameCount := s.frameCount + (n : ℚ) } := by
  induction n generalizing s with
  | zero =>
    exact (engine_fc_congr s (by push_cast; ring)).symm
  | succ n ih =>
    show updateN n (update s).1 = _
    rw [update_dead s h]
    dsimp only
    rw [ih { s with frameCount := s.frameCount + 1 } h]
    exact engine_fc_congr s (by push_cast; ring)

theorem update_alive_case (s : EngineState) (h : s.bikeState.alive = true) :
    (update s).1 = (updateAlive { s with frameCount := s.frameCount + 1 }).state := by
  unfold update
  dsimp only
  split
  · rename_i hc
    rw [h] at hc
    cases hc
  · rfl

/-- The grace-period block makes the bike dead exactly when the health it
read was at most 0 and the grace counter it stored is at most 0. -/
theorem graceStage_alive_iff (headOn isOutsideRing : Bool) (t : EngineState)
    (halive : t.bikeState.alive = true) :
    ((graceStage headOn isOutsideRing t).bikeState.alive = false ↔
      (t.bikeState.health ≤ 0 ∧
        (graceStage headOn isOutsideRing t).bikeState.graceFramesRemaining ≤ 0)) := by
  unfold graceStage
  dsimp only
  split
  · (repeat' split) <;> simp_all
  · simp_all

/-- For a frame that starts alive, the bike ends the frame dead exactly
when the final health is at most 0 and the final grace counter is at
most 0. -/
theorem updateAlive_alive_iff (t : EngineState) (h : t.bikeState.alive = true) :
    ((updateAlive t).state.bikeState.alive = false ↔
      ((updateAlive t).state.bikeState.health ≤ 0 ∧
        (updateAlive t).state.bikeState.graceFramesRemaining ≤ 0)) := by
  unfold updateAlive
  dsimp only
  rw [graceStage_alive_iff]
  · simp only [graceStage_preserves, max_le_iff]
    constructor
    · rintro ⟨h1, h2⟩
      exact ⟨⟨by norm_num, h1⟩, h2⟩
    · rintro ⟨⟨_, h1⟩, h2⟩
      exact ⟨h1, h2⟩
  · simp only [trimStage_preserves, trailGrowthStage_preserves, regenStage_preserves,
      zoneStage_preserves, collisionStage_preserves, turnStage_preserves,
      updateBrakeSystem_preserves]
    exact h

/-- Claim C4 (amended): death is terminal and the dead-state update leaves
every component unchanged except the frame counter, which it still
increments (so the dead update is not the complete no-op the claim
states); and a live bike ends a frame dead exactly when its final health
is at most 0 with the stored grace countdown at most 0. -/
theorem claim_C4_amended (s : EngineState) :
    (s.bikeState.alive = false →
      ∀ n : ℕ, updateN n s = { s with frameCount := s.frameCount + (n : ℚ) }) ∧
    (s.bikeState.alive = true →
      ((update s).1.bikeState.alive = false ↔
        ((update s).1.bikeState.health ≤ 0 ∧
          (update s).1.bikeState.graceFramesRemaining ≤ 0))) := by
  constructor
  · intro h n
    exact updateN_dead n s h
  · intro halive
    rw [update_alive_case s halive]
    exact updateAlive_alive_iff _ halive

theorem claim_C4_amended_witness :
    (updateN 3 (updateN 2 (mkEngine cfgDeath)) =
      { updateN 2 (mkEngine cfgDeath) with
          frameCount := (updateN 2 (mkEngine cfgDeath)).frameCount + ((3 : ℕ) : ℚ) }) ∧
    ((update (mkEngine cfgDeath)).1.bikeState.alive = false ↔
      ((update (mkEngine cfgDeath)).1.bikeState.health ≤ 0 ∧
        (update (mkEngine cfgDeath)).1.bikeState.graceFramesRemaining ≤ 0)) :=
  ⟨(claim_C4_amended (updateN 2 (mkEngine cfgDeath))).1 (by decide) 3,
    (claim_C4_amended (mkEngine cfgDeath)).2 (by decide)⟩

/-- Claim C4 (counterexample): after two frames under cfgDeath the bike is
dead in a reachable state with frame counter 2, and a further update
still advances the frame counter to 3, so the dead update is not a
state-preserving no-op. -/
theorem claim_C4_counterexample :
    Reachable cfgDeath (updateN 2 (mkEngine cfgDeath)) ∧
    (updateN 2 (mkEngine cfgDeath)).bikeState.alive = false ∧
    (updateN 2 (mkEngine cfgDeath)).frameCount = 2 ∧
    (update (updateN 2 (mkEngine cfgDeath))).1.frameCount = 3 :=
  ⟨Reachable.step (Reachable.step Reachable.base), by decide, by decide, by decide⟩

/-- Claim C7: the braking resource.  While braking with positive energy a
frame subtracts the depletion rate (floored at 0) and resets the
recharge delay; at zero energy braking is forced off regardless of the
request flag; while not depleting, a positive delay counts down with
energy unchanged, and once the delay is spent the energy recharges by
the recharge rate, capped at the maximum and monotonically for a
nonnegative rate; and update applies exactly this brake step to the bike
state whenever the bike is alive. -/
theorem claim_C7 (cfg : GameConfig) (bs : BikeState) (s : EngineState) :
    (bs.isBraking = true ∧ 0 < bs.brakeEnergy →
      updateBrakeSystem cfg bs =
        { bs with
            brakeEnergy := max 0 (bs.brakeEnergy - cfg.brakeDepletionRate),
            brakeRechargeDelay := cfg.brakeRechargeDelayFrames }) ∧
    (bs.brakeEnergy ≤ 0 → (updateBrakeSystem cfg bs).isBraking = false) ∧
    (¬(bs.isBraking = true ∧ 0 < bs.brakeEnergy) → 0 < bs.brakeRechargeDelay →
      (updateBrakeSystem cfg bs).brakeRechargeDelay = bs.brakeRechargeDelay - 1 ∧
      (updateBrakeSystem cfg bs).brakeEnergy = bs.brakeEnergy) ∧
    (¬(bs.isBraking = true ∧ 0 < bs.brakeEnergy) → bs.brakeRechargeDelay ≤ 0 →
      (updateBrakeSystem cfg bs).brakeEnergy
        = min cfg.brakeMaxEnergy (bs.brakeEnergy + cfg.brakeRechargeRate) ∧
      (0 ≤ cfg.brakeRechargeRate → bs.brakeEnergy ≤ cfg.brakeMaxEnergy →
        bs.brakeEnergy ≤ (updateBrakeSystem cfg bs).brakeEnergy)) ∧
    (s.bikeState.alive = true →
      (update s).1.bikeState.brakeEnergy
        = (updateBrakeSystem s.config s.bikeState).brakeEnergy ∧
      (update s).1.bikeState.brakeRechargeDelay
        = (updateBrakeSystem s.config s.bikeState).brakeRechargeDelay ∧
      (update s).1.bikeState.isBraking
        = (updateBrakeSystem s.config s.bikeState).isBraking) := by
  refine ⟨?_, ?_, ?_, ?_, ?_⟩
  · intro hcond
    unfold updateBrakeSystem
    rw [if_pos hcond]
  · intro he
    unfold updateBrakeSystem
    dsimp only
    split
    · rename_i hcond
      exact absurd hcond.2 (not_lt.2 he)
    · split <;> rfl
  · intro hn hd
    unfold updateBrakeSystem
    dsimp only
    split
    · rename_i hcond
      exact absurd hcond hn
    · split <;> constructor <;> trivial
  · intro hn hd
    unfold updateBrakeSystem
    dsimp only
    have hnd : ¬(0 < bs.brakeRechargeDelay) := not_lt.2 hd
    split
    · rename_i hcond
      exact absurd hcond hn
    · split <;> refine ⟨by simp, fun hr hle => le_min hle (by linarith)⟩
  · intro halive
    rw [update_alive_case s halive]
    unfold updateAlive
    dsimp only
    simp only [graceStage_preserves, trimStage_preserves, trailGrowthStage_preserves,
      regenStage_preserves, zoneStage_preserves, collisionStage_preserves, turnStage_preserves]
    refine ⟨?_, ?_, ?_⟩ <;> trivial

/-- Claim C3: turn buffering.  queueTurn appends to the back of the queue;
a dead frame leaves the queue untouched; a live frame applies exactly
the head of the queue, and only when at least turnDelayFrames have
elapsed since lastTurnFrame, recording the current frame as the new
lastTurnFrame (so the next turn must wait the full delay again); in
every other case the queue, lastTurnFrame and rotation are unchanged.
Together: at most one turn per update and per delay window, applied in
FIFO order, and turns are never dropped or reordered by update. -/
theorem claim_C3 (s : EngineState) (d : TurnDirection) :
    ((queueTurn d s).turnQueue = s.turnQueue ++ [d]) ∧
    (s.bikeState.alive = false → (update s).1.turnQueue = s.turnQueue) ∧
    (s.bikeState.alive = true →
      s.frameCount + 1 - s.bikeState.lastTurnFrame ≥ s.config.turnDelayFrames →
      s.turnQueue ≠ [] →
      ((update s).1.turnQueue = s.turnQueue.tail ∧
       (update s).1.bikeState.lastTurnFrame = s.frameCount + 1 ∧
       (update s).1.bikeState.rotation
         = s.bikeState.rotation +
             (match s.turnQueue.head? with
              | some TurnDirection.left => 1
              | some TurnDirection.right => -1
              | none => 0))) ∧
    (s.bikeState.alive = true →
      ¬(s.frameCount + 1 - s.bikeState.lastTurnFrame ≥ s.config.turnDelayFrames ∧
          s.turnQueue ≠ []) →
      ((update s).1.turnQueue = s.turnQueue ∧
       (update s).1.bikeState.lastTurnFrame = s.bikeState.lastTurnFrame ∧
       (update s).1.bikeState.rotation = s.bikeState.rotation)) := by
  refine ⟨rfl, ?_, ?_, ?_⟩
  · intro h
    rw [update_dead s h]
  · intro halive hdelay hq
    rw [update_alive_case s halive]
    unfold updateAlive
    dsimp only
    simp only [graceStage_preserves, trimStage_preserves, trailGrowthStage_preserves,
      regenStage_preserves, zoneStage_preserves, collisionStage_preserves]
    unfold turnStage
    dsimp only
    simp only [updateBrakeSystem_preserves]
    rcases hqe : s.turnQueue with _ | ⟨t, rest⟩
    · exact absurd hqe hq
    · dsimp only
      rw [if_pos hdelay]
      cases t <;> exact ⟨rfl, rfl, rfl⟩
  · intro halive hneg
    rw [update_alive_case s halive]
    unfold updateAlive
    dsimp only
    simp only [graceStage_preserves, trimStage_preserves, trailGrowthStage_preserves,
      regenStage_preserves, zoneStage_preserves, collisionStage_preserves]
    unfold turnStage
    dsimp only
    simp only [updateBrakeSystem_preserves]
    rcases hqe : s.turnQueue with _ | ⟨t, rest⟩
    · dsimp only
      simp only [updateBrakeSystem_preserves]
      refine ⟨?_, ?_, ?_⟩ <;> trivial
    · dsimp only
      rw [if_neg]
      · simp only [updateBrakeSystem_preserves]
        refine ⟨?_, ?_, ?_⟩ <;> trivial
      · intro hc
        exact hneg ⟨hc, by rw [hqe]; simp⟩

/-- Engine state with a turn queued and the delay already satisfied, used
by the turn witness. -/
def turnReadyState : EngineState := queueTurn TurnDirection.left (mkEngine cfgTurn)

theorem claim_C3_witness :
    ((queueTurn TurnDirection.right turnReadyState).turnQueue
      = turnReadyState.turnQueue ++ [TurnDirection.right]) ∧
    ((update turnReadyState).1.turnQueue = turnReadyState.turnQueue.tail ∧
     (update turnReadyState).1.bikeState.lastTurnFrame = turnReadyState.frameCount + 1 ∧
     (update turnReadyState).1.bikeState.rotation
       = turnReadyState.bikeState.rotation +
           (match turnReadyState.turnQueue.head? with
            | some TurnDirection.left => 1
            | some TurnDirection.right => -1
            | none => 0)) ∧
    ((update (mkEngine DEFAULT_CONFIG)).1.turnQueue = (mkEngine DEFAULT_CONFIG).turnQueue ∧
     (update (mkEngine DEFAULT_CONFIG)).1.bikeState.lastTurnFrame
       = (mkEngine DEFAULT_CONFIG).bikeState.lastTurnFrame ∧
     (update (mkEngine DEFAULT_CONFIG)).1.bikeState.rotation
       = (mkEngine DEFAULT_CONFIG).bikeState.rotation) :=
  ⟨(claim_C3 turnReadyState TurnDirection.right).1,
   (claim_C3 turnReadyState TurnDirection.left).2.2.1 (by decide) (by decide) (by decide),
   (claim_C3 (mkEngine DEFAULT_CONFIG) TurnDirection.left).2.2.2 (by decide)
     (by intro hc; exact hc.2 rfl)⟩

/-- Engine state with braking requested, used by the brake witness. -/
def brakeOnState : EngineState := setBraking true (mkEngine DEFAULT_CONFIG)

/-- Engine state one braked frame later with the brake request released:
its recharge delay is pending, used by the brake witness. -/
def brakeRestState : EngineState := setBraking false (update brakeOnState).1

/-- A bike state with empty brake energy while still requesting to brake,
used by the brake witness. -/
def brakeEmptyBike : BikeState :=
  { createInitialBikeState DEFAULT_CONFIG with brakeEnergy := 0, isBraking := true }

theorem claim_C7_witness :
    (updateBrakeSystem DEFAULT_CONFIG brakeOnState.bikeState =
      { brakeOnState.bikeState with
          brakeEnergy := max 0 (brakeOnState.bikeState.brakeEnergy
            - DEFAULT_CONFIG.brakeDepletionRate),
          brakeRechargeDelay := DEFAULT_CONFIG.brakeRechargeDelayFrames }) ∧
    (updateBrakeSystem DEFAULT_CONFIG brakeEmptyBike).isBraking = false ∧
    ((updateBrakeSystem DEFAULT_CONFIG brakeRestState.bikeState).brakeRechargeDelay
      = brakeRestState.bikeState.brakeRechargeDelay - 1 ∧
     (updateBrakeSystem DEFAULT_CONFIG brakeRestState.bikeState).brakeEnergy
      = brakeRestState.bikeState.brakeEnergy) ∧
    ((updateBrakeSystem DEFAULT_CONFIG (mkEngine DEFAULT_CONFIG).bikeState).brakeEnergy
      = min DEFAULT_CONFIG.brakeMaxEnergy
          ((mkEngine DEFAULT_CONFIG).bikeState.brakeEnergy + DEFAULT_CONFIG.brakeRechargeRate) ∧
     (mkEngine DEFAULT_CONFIG).bikeState.brakeEnergy
      ≤ (updateBrakeSystem DEFAULT_CONFIG (mkEngine DEFAULT_CONFIG).bikeState).brakeEnergy) ∧
    (update brakeOnState).1.bikeState.brakeEnergy
      = (updateBrakeSystem DEFAULT_CONFIG brakeOnState.bikeState).brakeEnergy :=
  ⟨(claim_C7 DEFAULT_CONFIG brakeOnState.bikeState brakeOnState).1 (by decide),
   (claim_C7 DEFAULT_CONFIG brakeEmptyBike brakeOnState).2.1 (by decide),
   (claim_C7 DEFAULT_CONFIG brakeRestState.bikeState brakeOnState).2.2.1
      (by decide) (by decide),
   ⟨((claim_C7 DEFAULT_CONFIG (mkEngine DEFAULT_CONFIG).bikeState brakeOnState).2.2.2.1
      (by decide) (by decide)).1,
    ((claim_C7 DEFAULT_CONFIG (mkEngine DEFAULT_CONFIG).bikeState brakeOnState).2.2.2.1
      (by decide) (by decide)).2 (by decide) (by decide)⟩,
   ((claim_C7 DEFAULT_CONFIG brakeOnState.bikeState brakeOnState).2.2.2.2 (by decide)).1⟩

/-- The headOn flag of the frame that update would run on s. -/
def stepHeadOn (s : EngineState) : Bool :=
  (updateAlive { s with frameCount := s.frameCount + 1 }).headOn

/-- The isOutsideRing flag of the frame that update would run on s. -/
def stepOutside (s : EngineState) : Bool :=
  (updateAlive { s with frameCount := s.frameCount + 1 }).isOutsideRing

/-- The regenApplied flag of the frame that update would run on s. -/
def stepRegen (s : EngineState) : Bool :=
  (updateAlive { s with frameCount := s.frameCount + 1 }).regenApplied

theorem reachable_updateN {cfg : GameConfig} {s : EngineState} (h : Reachable cfg s) :
    ∀ n : ℕ, Reachable cfg (updateN n s) := by
  intro n
  induction n generalizing s with
  | zero => exact h
  | succ n ih => exact ih (Reachable.step h)

/-- Health, hit frame and damage type through the collision-damage block,
split by the headOn flag. -/
theorem collisionStage_spec (t : EngineState) :
    ((collisionStage t).2 = true →
      (collisionStage t).1.bikeState.health = max 0 (t.bikeState.health - 12 / 10) ∧
      (collisionStage t).1.lastHitFrame = t.frameCount ∧
      (collisionStage t).1.lastDamageType = some DamageType.collision) ∧
    ((collisionStage t).2 = false →
      (collisionStage t).1.bikeState.health = t.bikeState.health ∧
      (collisionStage t).1.lastHitFrame = t.lastHitFrame ∧
      (collisionStage t).1.lastDamageType = t.lastDamageType) := by
  unfold collisionStage
  dsimp only
  split
  · split
    · exact ⟨fun _ => ⟨rfl, rfl, rfl⟩, fun hF => Bool.noConfusion hF⟩
    · exact ⟨fun hF => Bool.noConfusion hF, fun _ => ⟨rfl, rfl, rfl⟩⟩
  · exact ⟨fun hF => Bool.noConfusion hF, fun _ => ⟨rfl, rfl, rfl⟩⟩

/-- The zone flag is the outside-ring test on the current position. -/
theorem zoneStage_flag (t : EngineState) :
    (zoneStage t).2 = t.arena.isPositionOutsideRing t.bikeState.position := by
  unfold zoneStage
  dsimp only
  split <;> simp_all

/-- Health and damage type through the zone-damage block, split by the
isOutsideRing flag. -/
theorem zoneStage_spec (t : EngineState) :
    ((zoneStage t).2 = true →
      (zoneStage t).1.bikeState.health
        = max 0 (t.bikeState.health - t.arena.ringDepletionPerFrame) ∧
      (zoneStage t).1.lastDamageType = some DamageType.zone) ∧
    ((zoneStage t).2 = false →
      (zoneStage t).1.bikeState.health = t.bikeState.health ∧
      (zoneStage t).1.lastDamageType = t.lastDamageType) := by
  unfold zoneStage
  dsimp only
  split
  · exact ⟨fun _ => ⟨rfl, rfl⟩, fun hF => Bool.noConfusion hF⟩
  · exact ⟨fun hF => Bool.noConfusion hF, fun _ => ⟨rfl, rfl⟩⟩

/-- The regeneration block: its flag holds exactly under the condition of
the source, and health changes by the matching regeneration rate when it
does, otherwise not at all. -/
theorem regenStage_spec (hO oO : Bool) (t : EngineState) :
    ((regenStage hO oO t).2 = true ↔
      (hO = false ∧ oO = false ∧
        t.frameCount - t.lastHitFrame > t.config.regenDelayFrames ∧
        t.bikeState.health < t.bikeState.maxHealth)) ∧
    ((regenStage hO oO t).2 = true →
      (regenStage hO oO t).1.bikeState.health
        = min t.bikeState.maxHealth (t.bikeState.health +
            (if t.lastDamageType = some DamageType.zone then t.config.slowRegenRate
             else t.config.fastRegenRate))) ∧
    ((regenStage hO oO t).2 = false →
      (regenStage hO oO t).1.bikeState.health = t.bikeState.health) := by
  unfold regenStage
  dsimp only
  split <;> rename_i hcond
  · refine ⟨by simp_all, fun _ => rfl, fun hF => Bool.noConfusion hF⟩
  · refine ⟨by simp_all, fun hF => Bool.noConfusion hF, fun _ => rfl⟩

/-- When the zone flag is set the regeneration block is skipped. -/
theorem regenStage_outside_skip (hO : Bool) (u : EngineState) :
    regenStage hO true u = (u, false) := by
  unfold regenStage
  dsimp only
  rw [if_neg]
  intro hc
  exact Bool.noConfusion hc.2.1

/-- updateN applied once more at the back of the run. -/
theorem updateN_succ_back (n : ℕ) (s : EngineState) :
    updateN (n + 1) s = (update (updateN n s)).1 := by
  induction n generalizing s with
  | zero => rfl
  | succ n ih =>
    show updateN (n + 1) (update s).1 = _
    rw [ih (update s).1]
    rfl

/-- A live frame whose final position is outside the ring and with no
head-on collision subtracts exactly the per-frame ring depletion from
health, clamped below at 0, with no regeneration. -/
theorem update_health_outside (t : EngineState)
    (halive : t.bikeState.alive = true)
    (hOut : stepOutside t = true)
    (hNoHit : stepHeadOn t = false) :
    (update t).1.bikeState.health
      = max 0 (t.bikeState.health - t.arena.ringDepletionPerFrame) := by
  rw [update_alive_case t halive]
  unfold stepOutside at hOut
  unfold stepHeadOn at hNoHit
  unfold updateAlive at hOut hNoHit ⊢
  dsimp only at hOut hNoHit ⊢
  simp only [graceStage_preserves, trimStage_preserves, trailGrowthStage_preserves]
  rw [hNoHit, hOut, regenStage_outside_skip]
  dsimp only
  rw [((zoneStage_spec _).1 hOut).1]
  rw [((collisionStage_spec _).2 hNoHit).1]
  simp only [collisionStage_preserves, turnStage_preserves, updateBrakeSystem_preserves]
  exact max_eq_right (le_trans (by norm_num) (le_max_left 0 _))

/-- Claim C5: each frame spent fully outside the ring with no head-on
collision costs exactly 100 / ringDepletionFrames health, clamped below
at 0 and independent of maxHealth, with no regeneration on such frames;
over N consecutive such frames the loss is exactly N times that
constant, clamped at 0. -/
theorem claim_C5 {cfg : GameConfig} {s : EngineState} (h : Reachable cfg s)
    (hrd : 0 < cfg.ringDepletionFrames) (hh : 0 ≤ s.bikeState.health) (N : ℕ)
    (hrun : ∀ k, k < N →
      (updateN k s).bikeState.alive = true ∧
      stepOutside (updateN k s) = true ∧
      stepHeadOn (updateN k s) = false) :
    (updateN N s).bikeState.health
      = max 0 (s.bikeState.health - (N : ℚ) * (100 / cfg.ringDepletionFrames)) := by
  induction N with
  | zero =>
    show s.bikeState.health = _
    rw [Nat.cast_zero, zero_mul, sub_zero]
    exact (max_eq_right hh).symm
  | succ N ih =>
    have hstep := hrun N (by omega)
    rw [updateN_succ_back]
    rw [update_health_outside _ hstep.1 hstep.2.1 hstep.2.2]
    rw [ih (fun k hk => hrun k (by omega))]
    rw [(reachable_config (reachable_updateN h N)).2.2.1]
    have hr : 0 ≤ 100 / cfg.ringDepletionFrames := by positivity
    rcases le_total (s.bikeState.health - (N : ℚ) * (100 / cfg.ringDepletionFrames)) 0 with hc | hc
    · rw [max_eq_left hc, max_eq_left (by linarith), max_eq_left (by push_cast; linarith)]
    · rw [max_eq_right hc]
      congr 1
      push_cast
      ring

theorem claim_C5_witness :
    (updateN 3 (mkEngine cfgZone)).bikeState.health
      = max 0 ((mkEngine cfgZone).bikeState.health
          - ((3 : ℕ) : ℚ) * (100 / cfgZone.ringDepletionFrames)) ∧
    (updateN 3 (mkEngine cfgZone)).bikeState.health = 6 :=
  ⟨claim_C5 Reachable.base (by decide) (by decide) 3 (by decide), by decide⟩

/-- Claim C6: regeneration characterization.  The regeneration flag of a
live frame holds exactly when the frame had neither a head-on hit nor
zone damage, strictly more than regenDelayFrames frames have passed
since the recorded last hit, and health is below maxHealth; when it
holds, health becomes min maxHealth (health + rate) with the slow rate
when the most recent damage type was zone and the fast rate otherwise;
and on a damage-free frame without regeneration health is unchanged. -/
theorem claim_C6 (s : EngineState)
    (halive : s.bikeState.alive = true)
    (hh : 0 ≤ s.bikeState.health)
    (hm : 0 ≤ s.bikeState.maxHealth)
    (hs : 0 ≤ s.config.slowRegenRate)
    (hf : 0 ≤ s.config.fastRegenRate) :
    (stepRegen s = true ↔
      (stepHeadOn s = false ∧ stepOutside s = false ∧
        s.frameCount + 1 - s.lastHitFrame > s.config.regenDelayFrames ∧
        s.bikeState.health < s.bikeState.maxHealth)) ∧
    (stepRegen s = true →
      (update s).1.bikeState.health
        = min s.bikeState.maxHealth (s.bikeState.health +
            (if s.lastDamageType = some DamageType.zone then s.config.slowRegenRate
             else s.config.fastRegenRate))) ∧
    (stepRegen s = false → stepHeadOn s = false → stepOutside s = false →
      (update s).1.bikeState.health = s.bikeState.health) := by
  refine ⟨?_, ?_, ?_⟩
  · unfold stepRegen stepHeadOn stepOutside updateAlive
    dsimp only
    rw [(regenStage_spec _ _ _).1]
    constructor
    · rintro ⟨h1, h2, h3, h4⟩
      have e1 := (collisionStage_spec _).2 h1
      have e2 := (zoneStage_spec _).2 h2
      refine ⟨h1, h2, ?_, ?_⟩
      · simpa only [zoneStage_preserves, zoneStage_config, e2.1, e1.1, e1.2.1,
          collisionStage_preserves, collisionStage_config, turnStage_preserves,
          turnStage_config, updateBrakeSystem_preserves] using h3
      · simpa only [zoneStage_preserves, zoneStage_config, e2.1, e1.1, e1.2.1,
          collisionStage_preserves, collisionStage_config, turnStage_preserves,
          turnStage_config, updateBrakeSystem_preserves] using h4
    · rintro ⟨h1, h2, h3, h4⟩
      have e1 := (collisionStage_spec _).2 h1
      have e2 := (zoneStage_spec _).2 h2
      refine ⟨h1, h2, ?_, ?_⟩
      · simpa only [zoneStage_preserves, zoneStage_config, e2.1, e1.1, e1.2.1,
          collisionStage_preserves, collisionStage_config, turnStage_preserves,
          turnStage_config, updateBrakeSystem_preserves] using h3
      · simpa only [zoneStage_preserves, zoneStage_config, e2.1, e1.1, e1.2.1,
          collisionStage_preserves, collisionStage_config, turnStage_preserves,
          turnStage_config, updateBrakeSystem_preserves] using h4
  · intro hreg
    obtain ⟨h1, h2, -, -⟩ := (by
      unfold stepRegen updateAlive at hreg
      dsimp only at hreg
      exact (regenStage_spec _ _ _).1.mp hreg :
        _ ∧ _ ∧ _ ∧ _)
    rw [update_alive_case s halive]
    unfold stepRegen at hreg
    unfold updateAlive at hreg ⊢
    dsimp only at hreg ⊢
    simp only [graceStage_preserves, trimStage_preserves, trailGrowthStage_preserves]
    rw [(regenStage_spec _ _ _).2.1 hreg]
    have e1 := (collisionStage_spec _).2 h1
    have e2 := (zoneStage_spec _).2 h2
    simp only [zoneStage_preserves, zoneStage_config, e2.1, e2.2, e1.1, e1.2.1, e1.2.2,
      collisionStage_preserves, collisionStage_config, turnStage_preserves,
      turnStage_config, updateBrakeSystem_preserves]
    have hrate : 0 ≤ (if s.lastDamageType = some DamageType.zone then s.config.slowRegenRate
        else s.config.fastRegenRate) := by
      split <;> assumption
    exact max_eq_right (le_min (by linarith) (by linarith))
  · intro hreg h1 h2
    rw [update_alive_case s halive]
    unfold stepRegen at hreg
    unfold stepHeadOn at h1
    unfold stepOutside at h2
    unfold updateAlive at hreg h1 h2 ⊢
    dsimp only at hreg h1 h2 ⊢
    simp only [graceStage_preserves, trimStage_preserves, trailGrowthStage_preserves]
    rw [(regenStage_spec _ _ _).2.2 hreg]
    have e1 := (collisionStage_spec _).2 h1
    have e2 := (zoneStage_spec _).2 h2
    simp only [e2.1, e1.1, turnStage_preserves, updateBrakeSystem_preserves]
    exact max_eq_right (by linarith)

/-- Engine state whose next frame regenerates: reduced health, no recent
hit, frame counter far past the regeneration delay. -/
def regenReadyState : EngineState :=
  { mkEngine DEFAULT_CONFIG with
      frameCount := 100,
      bikeState := { createInitialBikeState DEFAULT_CONFIG with health := 100 } }

theorem claim_C6_witness :
    (stepRegen regenReadyState = true ↔
      (stepHeadOn regenReadyState = false ∧ stepOutside regenReadyState = false ∧
        regenReadyState.frameCount + 1 - regenReadyState.lastHitFrame
          > regenReadyState.config.regenDelayFrames ∧
        regenReadyState.bikeState.health < regenReadyState.bikeState.maxHealth)) ∧
    ((update regenReadyState).1.bikeState.health
      = min regenReadyState.bikeState.maxHealth (regenReadyState.bikeState.health +
          (if regenReadyState.lastDamageType = some DamageType.zone
           then regenReadyState.config.slowRegenRate
           else regenReadyState.config.fastRegenRate))) ∧
    (update (mkEngine DEFAULT_CONFIG)).1.bikeState.health
      = (mkEngine DEFAULT_CONFIG).bikeState.health :=
  ⟨(claim_C6 regenReadyState (by decide) (by decide) (by decide) (by decide) (by decide)).1,
   (claim_C6 regenReadyState (by decide) (by decide) (by decide) (by decide) (by decide)).2.1
     (by decide),
   (claim_C6 (mkEngine DEFAULT_CONFIG) (by decide) (by decide) (by decide) (by decide)
     (by decide)).2.2 (by decide) (by decide) (by decide)⟩

/-- The collision-damage block keeps health within [0, previous health]
when the previous health is nonnegative: damage is floored at 0 and
never increases health. -/
theorem collisionStage_health_bounds (u : EngineState) (hlo : 0 ≤ u.bikeState.health) :
    0 ≤ (collisionStage u).1.bikeState.health ∧
    (collisionStage u).1.bikeState.health ≤ u.bikeState.health := by
  cases hA : (collisionStage u).2 with
  | true =>
    rw [((collisionStage_spec u).1 hA).1]
    exact ⟨le_max_left 0 _, max_le hlo (by linarith)⟩
  | false =>
    rw [((collisionStage_spec u).2 hA).1]
    exact ⟨hlo, le_refl _⟩

/-- The zone-damage block keeps health within [0, previous health] for a
nonnegative depletion rate. -/
theorem zoneStage_health_bounds (u : EngineState)
    (hdep : 0 ≤ u.arena.ringDepletionPerFrame) (hlo : 0 ≤ u.bikeState.health) :
    0 ≤ (zoneStage u).1.bikeState.health ∧
    (zoneStage u).1.bikeState.health ≤ u.bikeState.health := by
  cases hz : (zoneStage u).2 with
  | true =>
    rw [((zoneStage_spec u).1 hz).1]
    exact ⟨le_max_left 0 _, max_le hlo (by linarith)⟩
  | false =>
    rw [((zoneStage_spec u).2 hz).1]
    exact ⟨hlo, le_refl _⟩

/-- The regeneration block keeps health within [0, maxHealth] for
nonnegative rates. -/
theorem regenStage_health_bounds (hO oO : Bool) (u : EngineState)
    (hs : 0 ≤ u.config.slowRegenRate) (hf : 0 ≤ u.config.fastRegenRate)
    (hlo : 0 ≤ u.bikeState.health) (hhi : u.bikeState.health ≤ u.bikeState.maxHealth)
    (hm0 : 0 ≤ u.bikeState.maxHealth) :
    0 ≤ (regenStage hO oO u).1.bikeState.health ∧
    (regenStage hO oO u).1.bikeState.health ≤ u.bikeState.maxHealth := by
  cases hr : (regenStage hO oO u).2 with
  | true =>
    rw [(regenStage_spec hO oO u).2.1 hr]
    have hrate : 0 ≤ (if u.lastDamageType = some DamageType.zone then u.config.slowRegenRate
        else u.config.fastRegenRate) := by
      split <;> assumption
    exact ⟨le_min hm0 (by linarith), min_le_left _ _⟩
  | false =>
    rw [(regenStage_spec hO oO u).2.2 hr]
    exact ⟨hlo, hhi⟩

/-- One alive frame keeps health within [0, maxHealth] under nonnegative
regeneration and depletion rates. -/
theorem updateAlive_health_bounds (t : EngineState)
    (hs : 0 ≤ t.config.slowRegenRate) (hf : 0 ≤ t.config.fastRegenRate)
    (hdep : 0 ≤ t.arena.ringDepletionPerFrame)
    (hlo : 0 ≤ t.bikeState.health) (hhi : t.bikeState.health ≤ t.bikeState.maxHealth)
    (hm0 : 0 ≤ t.bikeState.maxHealth) :
    0 ≤ (updateAlive t).state.bikeState.health ∧
    (updateAlive t).state.bikeState.health ≤ t.bikeState.maxHealth := by
  have h1 := collisionStage_health_bounds
    (turnStage { t with bikeState := updateBrakeSystem t.config t.bikeState })
    (by simp only [turnStage_preserves, updateBrakeSystem_preserves]; exact hlo)
  have h2 := zoneStage_health_bounds
    (collisionStage (turnStage { t with bikeState := updateBrakeSystem t.config t.bikeState })).1
    (by simp only [collisionStage_preserves, turnStage_preserves]; exact hdep)
    h1.1
  have hmq : (zoneStage (collisionStage (turnStage
      { t with bikeState := updateBrakeSystem t.config t.bikeState })).1).1.bikeState.maxHealth
      = t.bikeState.maxHealth := by
    simp only [zoneStage_preserves, collisionStage_preserves, turnStage_preserves,
      updateBrakeSystem_preserves]
  have hth : (turnStage { t with bikeState := updateBrakeSystem t.config t.bikeState }).bikeState.health = t.bikeState.health := by
    simp only [turnStage_preserves, updateBrakeSystem_preserves]
  have h3 := regenStage_health_bounds
    (collisionStage (turnStage { t with bikeState := updateBrakeSystem t.config t.bikeState })).2
    (zoneStage (collisionStage (turnStage
      { t with bikeState := updateBrakeSystem t.config t.bikeState })).1).2
    (zoneStage (collisionStage (turnStage
      { t with bikeState := updateBrakeSystem t.config t.bikeState })).1).1
    (by simp only [zoneStage_config, collisionStage_config, turnStage_config]; exact hs)
    (by simp only [zoneStage_config, collisionStage_config, turnStage_config]; exact hf)
    h2.1
    (by rw [hmq]; exact h2.2.trans (h1.2.trans (hth.le.trans hhi)))
    (by rw [hmq]; exact hm0)
  unfold updateAlive
  dsimp only
  simp only [graceStage_preserves, trimStage_preserves, trailGrowthStage_preserves,
    regenStage_preserves, zoneStage_preserves, collisionStage_preserves, turnStage_preserves,
    updateBrakeSystem_preserves]
  constructor
  · exact le_max_of_le_right h3.1
  · exact max_le (by linarith) (hmq ▸ h3.2)

/-- A full update keeps health within [0, maxHealth] under nonnegative
rates, dead or alive. -/
theorem update_health_bounds (t : EngineState)
    (hs : 0 ≤ t.config.slowRegenRate) (hf : 0 ≤ t.config.fastRegenRate)
    (hdep : 0 ≤ t.arena.ringDepletionPerFrame)
    (hlo : 0 ≤ t.bikeState.health) (hhi : t.bikeState.health ≤ t.bikeState.maxHealth)
    (hm0 : 0 ≤ t.bikeState.maxHealth) :
    0 ≤ (update t).1.bikeState.health ∧
    (update t).1.bikeState.health ≤ (update t).1.bikeState.maxHealth := by
  rw [update_maxHealth]
  cases ha : t.bikeState.alive with
  | false =>
    rw [update_dead t ha]
    exact ⟨hlo, hhi⟩
  | true =>
    rw [update_alive_case t ha]
    exact updateAlive_health_bounds _ hs hf hdep hlo hhi hm0

/-- Claim C10: in every reachable state (for nonnegative regeneration
rates and a positive ringDepletionFrames, as in DEFAULT_CONFIG) health
stays within [0, maxHealth], so the tolerated slack down to -10 is never
reached and the final Math.max(-10, health) clamp is redundant. -/
theorem claim_C10 {cfg : GameConfig} {s : EngineState} (h : Reachable cfg s)
    (hs : 0 ≤ cfg.slowRegenRate) (hf : 0 ≤ cfg.fastRegenRate)
    (hrd : 0 < cfg.ringDepletionFrames) :
    0 ≤ s.bikeState.health ∧ s.bikeState.health ≤ s.bikeState.maxHealth ∧
    max (-10) s.bikeState.health = s.bikeState.health := by
  have key : 0 ≤ s.bikeState.health ∧ s.bikeState.health ≤ s.bikeState.maxHealth := by
    induction h with
    | base => exact ⟨(by norm_num : (0 : ℚ) ≤ 156), le_refl _⟩
    | step hR ih =>
      obtain ⟨hc, -, hd, hm⟩ := reachable_config hR
      refine update_health_bounds _ ?_ ?_ ?_ ih.1 ih.2 ?_
      · rw [hc]; exact hs
      · rw [hc]; exact hf
      · rw [hd]; positivity
      · rw [hm]; norm_num
    | turn d _ ih => exact ih
    | brake b _ ih => exact ih
    | reinit _ ih => exact ⟨(by norm_num : (0 : ℚ) ≤ 156), le_refl _⟩
    | drainSegs _ ih => exact ih
    | drainCount _ ih => exact ih
  exact ⟨key.1, key.2, max_eq_right (le_trans (by norm_num) key.1)⟩

theorem claim_C10_witness :
    0 ≤ (update (mkEngine DEFAULT_CONFIG)).1.bikeState.health ∧
    (update (mkEngine DEFAULT_CONFIG)).1.bikeState.health
      ≤ (update (mkEngine DEFAULT_CONFIG)).1.bikeState.maxHealth ∧
    max (-10) (update (mkEngine DEFAULT_CONFIG)).1.bikeState.health
      = (update (mkEngine DEFAULT_CONFIG)).1.bikeState.health :=
  claim_C10 (Reachable.step Reachable.base) (by decide) (by decide) (by decide)

theorem sqrtApprox_nonneg (q : ℚ) : 0 ≤ sqrtApprox q := by
  unfold sqrtApprox
  split
  · exact le_refl 0
  · exact le_trans (by norm_num) (le_max_left 1 q)

theorem sqrtApprox_sq_ge (q : ℚ) : q ≤ (sqrtApprox q) ^ 2 := by
  unfold sqrtApprox
  split
  · rename_i h
    nlinarith
  · rename_i h
    push_neg at h
    rcases le_total q 1 with h1 | h1
    · rw [max_eq_left h1]
      nlinarith
    · rw [max_eq_right h1]
      nlinarith

theorem sqrtApprox_one_le {q : ℚ} (h : 0 < q) : 1 ≤ sqrtApprox q := by
  unfold sqrtApprox
  rw [if_neg (not_le.2 h)]
  exact le_max_left 1 q

theorem abs_le_of_sq_le_sqQ {a b : ℚ} (h : a ^ 2 ≤ b ^ 2) (hb : 0 ≤ b) : |a| ≤ b := by
  rcases abs_cases a with ⟨ha, _⟩ | ⟨ha, _⟩ <;> nlinarith

/-- Components of the normalized push-out vector are bounded by 1 in
absolute value; this is the only property of the modelled normalization
used below. -/
theorem smul_inv_sqrtApprox_bounded (v : Vec3) (h : 0 < v.dot v) :
    |(v.smul (1 / sqrtApprox (v.dot v))).x| ≤ 1 ∧
    |(v.smul (1 / sqrtApprox (v.dot v))).z| ≤ 1 := by
  have hS1 : 1 ≤ sqrtApprox (v.dot v) := sqrtApprox_one_le h
  have hS0 : 0 < sqrtApprox (v.dot v) := by linarith
  have hx : |v.x| ≤ sqrtApprox (v.dot v) := by
    refine abs_le_of_sq_le_sqQ (le_trans ?_ (sqrtApprox_sq_ge _)) (by linarith)
    unfold Vec3.dot
    nlinarith [sq_nonneg v.y, sq_nonneg v.z]
  have hz : |v.z| ≤ sqrtApprox (v.dot v) := by
    refine abs_le_of_sq_le_sqQ (le_trans ?_ (sqrtApprox_sq_ge _)) (by linarith)
    unfold Vec3.dot
    nlinarith [sq_nonneg v.x, sq_nonneg v.y]
  have hkey : ∀ a : ℚ, |a| ≤ sqrtApprox (v.dot v) → |a * (1 / sqrtApprox (v.dot v))| ≤ 1 := by
    intro a ha
    rw [abs_mul, abs_of_pos (by positivity : (0 : ℚ) < 1 / sqrtApprox (v.dot v))]
    calc |a| * (1 / sqrtApprox (v.dot v))
        ≤ sqrtApprox (v.dot v) * (1 / sqrtApprox (v.dot v)) :=
          mul_le_mul_of_nonneg_right ha (by positivity)
      _ = 1 := by field_simp
  exact ⟨hkey v.x hx, hkey v.z hz⟩

/-- The invariant threaded through the trail-segment loop: a recorded
normal has both ground components bounded by 1. -/
def normalBounded (st : SegLoopState) : Prop :=
  ∀ n : Vec3, st.normal = some n → |n.x| ≤ 1 ∧ |n.z| ≤ 1

theorem segmentCheck_normalBounded (config : GameConfig) (position : Vec3)
    (trail : List Vec3) (wallKey : String) (grindDepthMap : List (String × ℚ))
    (grindOffset : ℚ) (st : SegLoopState) (i : ℕ) (h : normalBounded st) :
    normalBounded (segmentCheck config position trail wallKey grindDepthMap grindOffset st i) := by
  unfold segmentCheck
  dsimp only
  split
  · exact h
  split
  · exact h
  split
  · split
    · rename_i hguard
      split
      · intro n hn
        injection hn with hn
        subst hn
        exact smul_inv_sqrtApprox_bounded _ (by linarith)
      · exact fun n hn => h n hn
    · exact fun n hn => h n hn
  · exact h

theorem signQ_abs_le_one (v : ℚ) : |signQ v| ≤ 1 := by
  unfold signQ
  split
  · norm_num
  · split <;> norm_num

/-- Every normal reported by checkCollisions has ground components of
absolute value at most 1 (boundary normals are unit axis vectors; trail
normals are the modelled normalized push-out directions). -/
theorem checkCollisions_normal_bound (config : GameConfig)
    (grindDepthMap : List (String × ℚ)) (position : Vec3) (trail : List Vec3)
    (bikeState : BikeState) :
    ∀ n : Vec3, (checkCollisions config grindDepthMap position trail bikeState).normal = some n →
      |n.x| ≤ 1 ∧ |n.z| ≤ 1 := by
  unfold checkCollisions
  dsimp only
  have hfold : ∀ (l : List ℕ) (st : SegLoopState), normalBounded st →
      normalBounded (l.foldl (segmentCheck config position trail
        (if |position.z| > config.boundaryLimit - 15 / 100 then wallKeyZ position.z
         else if |position.x| > config.boundaryLimit - 15 / 100 then wallKeyX position.x
         else "") grindDepthMap bikeState.grindOffset) st) := by
    intro l
    induction l with
    | nil => exact fun st hst => hst
    | cons a l ih =>
      intro st hst
      exact ih _ (segmentCheck_normalBounded _ _ _ _ _ _ _ _ hst)
  refine hfold _ _ ?_
  intro n hn
  split at hn
  · injection hn with hn
    subst hn
    constructor
    · simp
    · simpa using signQ_abs_le_one position.z
  · split at hn
    · injection hn with hn
      subst hn
      constructor
      · simpa using signQ_abs_le_one position.x
      · simp
    · exact Option.noConfusion hn

/-- The boundary clamp bounds both ground coordinates by the clamp limit
boundaryLimit - 0.15 (the bike half width). -/
theorem clampToBoundary_bound (config : GameConfig) (p : Vec3)
    (hbl : 3 / 20 ≤ config.boundaryLimit) :
    |(clampToBoundary config p).x| ≤ config.boundaryLimit - 15 / 100 ∧
    |(clampToBoundary config p).z| ≤ config.boundaryLimit - 15 / 100 := by
  unfold clampToBoundary
  dsimp only
  constructor <;>
  · rw [abs_le]
    constructor
    · exact le_max_left _ _
    · exact max_le (by linarith) (min_le_left _ _)

/-- The collision-damage block keeps the grind offset within [0, 0.3]. -/
theorem collisionStage_grind_bounds (u : EngineState) (hg : 0 ≤ u.bikeState.grindOffset) :
    0 ≤ (collisionStage u).1.bikeState.grindOffset ∧
    (collisionStage u).1.bikeState.grindOffset ≤ 3 / 10 := by
  unfold collisionStage
  dsimp only
  split
  · split
    · exact ⟨le_min (by linarith) (by norm_num), min_le_right _ _⟩
    · exact ⟨le_min (by linarith) (by norm_num), min_le_right _ _⟩
  · exact ⟨le_refl 0, by norm_num⟩

/-- The position written by the collision-damage block: the clamped
corrected position pushed back along the normal by at most the capped
grind offset, so both ground coordinates stay within
boundaryLimit + 0.15 in absolute value. -/
theorem collisionStage_position_bound (u : EngineState)
    (hbl : 3 / 20 ≤ u.config.boundaryLimit) (hg : 0 ≤ u.bikeState.grindOffset) :
    |(collisionStage u).1.bikeState.position.x| ≤ u.config.boundaryLimit + 3 / 20 ∧
    |(collisionStage u).1.bikeState.position.z| ≤ u.config.boundaryLimit + 3 / 20 := by
  obtain ⟨hcx, hcz⟩ := clampToBoundary_bound u.config (collisionOf u).corrected hbl
  have key : ∀ a b g : ℚ, |a| ≤ u.config.boundaryLimit - 15 / 100 → |b| ≤ 1 →
      0 ≤ g → g ≤ 3 / 10 → |a + b * (-g)| ≤ u.config.boundaryLimit + 3 / 20 := by
    intro a b g hA hB hg0 hg3
    have h1 : |a + b * (-g)| ≤ |a| + |b * (-g)| := abs_add _ _
    have h2 : |b * (-g)| = |b| * g := by rw [abs_mul, abs_neg, abs_of_nonneg hg0]
    nlinarith [abs_nonneg b]
  unfold collisionStage
  dsimp only
  split
  · rename_i hit normal n hhit hnormal
    have hn := checkCollisions_normal_bound u.config u.grindDepthMap (potentialPosition u)
      (u.bikeState.trail ++ [potentialPosition u]) u.bikeState n
      (by unfold collisionOf at hnormal; exact hnormal)
    split
    · constructor
      · exact key _ _ _ hcx hn.1 (le_min (by linarith) (by norm_num)) (min_le_right _ _)
      · exact key _ _ _ hcz hn.2 (le_min (by linarith) (by norm_num)) (min_le_right _ _)
    · constructor
      · exact key _ _ _ hcx hn.1 (le_min (by linarith) (by norm_num)) (min_le_right _ _)
      · exact key _ _ _ hcz hn.2 (le_min (by linarith) (by norm_num)) (min_le_right _ _)
  · exact ⟨by dsimp only; linarith, by dsimp only; linarith⟩

/-- Per-frame preservation of the grind-offset and position bounds. -/
theorem update_grind_pos_bounds (t : EngineState)
    (hbl : 3 / 20 ≤ t.config.boundaryLimit)
    (hg : 0 ≤ t.bikeState.grindOffset) (hg3 : t.bikeState.grindOffset ≤ 3 / 10)
    (hx : |t.bikeState.position.x| ≤ t.config.boundaryLimit + 3 / 20)
    (hz : |t.bikeState.position.z| ≤ t.config.boundaryLimit + 3 / 20) :
    (0 ≤ (update t).1.bikeState.grindOffset ∧
      (update t).1.bikeState.grindOffset ≤ 3 / 10) ∧
    |(update t).1.bikeState.position.x| ≤ t.config.boundaryLimit + 3 / 20 ∧
    |(update t).1.bikeState.position.z| ≤ t.config.boundaryLimit + 3 / 20 := by
  cases ha : t.bikeState.alive with
  | false =>
    rw [update_dead t ha]
    exact ⟨⟨hg, hg3⟩, hx, hz⟩
  | true =>
    rw [update_alive_case t ha]
    unfold updateAlive
    dsimp only
    simp only [graceStage_preserves, trimStage_preserves, trailGrowthStage_preserves,
      regenStage_preserves, zoneStage_preserves]
    have hgu : 0 ≤ (turnStage { t with frameCount := t.frameCount + 1, bikeState := updateBrakeSystem t.config t.bikeState }).bikeState.grindOffset := by
      simp only [turnStage_preserves, updateBrakeSystem_preserves]
      exact hg
    have hblu : 3 / 20 ≤ (turnStage { t with frameCount := t.frameCount + 1, bikeState := updateBrakeSystem t.config t.bikeState }).config.boundaryLimit := by
      rw [turnStage_config]
      exact hbl
    have h1 := collisionStage_grind_bounds
      (turnStage { t with frameCount := t.frameCount + 1, bikeState := updateBrakeSystem t.config t.bikeState }) hgu
    have h2 := collisionStage_position_bound
      (turnStage { t with frameCount := t.frameCount + 1, bikeState := updateBrakeSystem t.config t.bikeState }) hblu hgu
    rw [turnStage_config] at h2
    exact ⟨h1, h2⟩

/-- In every reachable state (for a boundary limit of at least the bike
half width 0.15) the grind offset lies in [0, 0.3] and both ground
coordinates lie within boundaryLimit + 0.15 in absolute value. -/
theorem reachable_position_bound {cfg : GameConfig} {s : EngineState}
    (h : Reachable cfg s) (hbl : 3 / 20 ≤ cfg.boundaryLimit) :
    (0 ≤ s.bikeState.grindOffset ∧ s.bikeState.grindOffset ≤ 3 / 10) ∧
    |s.bikeState.position.x| ≤ cfg.boundaryLimit + 3 / 20 ∧
    |s.bikeState.position.z| ≤ cfg.boundaryLimit + 3 / 20 := by
  induction h with
  | base =>
    refine ⟨⟨le_refl 0, (by norm_num : (0 : ℚ) ≤ 3 / 10)⟩, ?_, ?_⟩ <;>
    · show |(0 : ℚ)| ≤ _
      rw [abs_zero]
      linarith
  | step hR ih =>
    have hc := (reachable_config hR).1
    have := update_grind_pos_bounds _ (by rw [hc]; exact hbl) ih.1.1 ih.1.2
      (by rw [hc]; exact ih.2.1) (by rw [hc]; exact ih.2.2)
    rw [hc] at this
    exact this
  | turn d _ ih => exact ih
  | brake b _ ih => exact ih
  | reinit _ ih =>
    refine ⟨⟨le_refl 0, (by norm_num : (0 : ℚ) ≤ 3 / 10)⟩, ?_, ?_⟩ <;>
    · show |(0 : ℚ)| ≤ _
      rw [abs_zero]
      linarith
  | drainSegs _ ih => exact ih
  | drainCount _ ih => exact ih

/-- Claim C1 (amended): after every update from a reachable state the
final position satisfies abs x and abs z at most boundaryLimit + 0.15:
the boundary clamp bounds both coordinates by boundaryLimit - 0.15 and
the grind pushback along a unit-bounded normal adds at most the capped
grind offset 0.3, so the bike can end a frame up to 0.15 outside
boundaryLimit but never further. -/
theorem claim_C1_amended {cfg : GameConfig} {s : EngineState}
    (h : Reachable cfg s) (hbl : 3 / 20 ≤ cfg.boundaryLimit) :
    |(update s).1.bikeState.position.x| ≤ cfg.boundaryLimit + 3 / 20 ∧
    |(update s).1.bikeState.position.z| ≤ cfg.boundaryLimit + 3 / 20 :=
  (reachable_position_bound (Reachable.step h) hbl).2

theorem claim_C1_amended_witness :
    |(update (mkEngine DEFAULT_CONFIG)).1.bikeState.position.x|
      ≤ DEFAULT_CONFIG.boundaryLimit + 3 / 20 ∧
    |(update (mkEngine DEFAULT_CONFIG)).1.bikeState.position.z|
      ≤ DEFAULT_CONFIG.boundaryLimit + 3 / 20 :=
  claim_C1_amended Reachable.base (by decide)

/-- Claim C1 (counterexample): under cfgGrind the bike grinds head-on into
the far wall; after 15 frames, a reachable state, the final z coordinate
is 23/20 = 1.15 while boundaryLimit is 1, exceeding it by 0.15 - far
beyond any numerical epsilon - so the claimed bound abs z <=
boundaryLimit fails. -/
theorem claim_C1_counterexample :
    Reachable cfgGrind (updateN 14 (mkEngine cfgGrind)) ∧
    (update (updateN 14 (mkEngine cfgGrind))).1.bikeState.position.z = 23 / 20 ∧
    cfgGrind.boundaryLimit = 1 ∧
    cfgGrind.boundaryLimit + 1 / 10
      < (update (updateN 14 (mkEngine cfgGrind))).1.bikeState.position.z :=
  ⟨reachable_updateN Reachable.base 14, by decide, rfl, by decide⟩

/-- Claim C9 (counterexample): the record returned by getBikeState shares
the trail reference with the engine, and pushing a waypoint onto the
returned trail array changes the result of the engines subsequent
getTrailLength from 1 to 2, so the returned value is not independent of
engine-internal state. -/
theorem claim_C9_counterexample :
    (getBikeStateRef mkRefEngine).trail = mkRefEngine.bikeState.trail ∧
    (getBikeStateRef mkRefEngine).position = mkRefEngine.bikeState.position ∧
    getTrailLengthRef mkRefEngine = 1 ∧
    getTrailLengthRef
      (pushTrailExternally mkRefEngine (getBikeStateRef mkRefEngine).trail vzero) = 2 :=
  ⟨rfl, rfl, rfl, by decide⟩

/-- Claim C9 (amended): getBikeState returns a shallow copy.  Its
primitive fields are independent copies, but the position and trail
fields are the same heap references as the engine-internal record, so a
mutation made through the returned trail reference is visible to every
subsequent engine read: pushing one waypoint increases the engines
getTrailLength by one. -/
theorem claim_C9_amended (e : RefEngine) (v : Vec3) :
    (getBikeStateRef e).position = e.bikeState.position ∧
    (getBikeStateRef e).trail = e.bikeState.trail ∧
    getTrailLengthRef (pushTrailExternally e (getBikeStateRef e).trail v)
      = getTrailLengthRef e + 1 := by
  refine ⟨rfl, rfl, ?_⟩
  unfold getTrailLengthRef pushTrailExternally getBikeStateRef
  dsimp only
  rw [Function.update_same]
  exact List.length_append _ _

/-- Claim C2 (code bug): the freshly constructed engine has one trail
waypoint but an empty trail-age list, while reset pairs the initial
waypoint with age 0 as the stated invariant requires. -/
theorem claim_C2_constructor_mismatch :
    Reachable DEFAULT_CONFIG (mkEngine DEFAULT_CONFIG) ∧
    (mkEngine DEFAULT_CONFIG).bikeState.trail.length = 1 ∧
    (mkEngine DEFAULT_CONFIG).trailFrames.length = 0 ∧
    (reset (mkEngine DEFAULT_CONFIG)).bikeState.trail.length = 1 ∧
    (reset (mkEngine DEFAULT_CONFIG)).trailFrames.length = 1 :=
  ⟨Reachable.base, rfl, rfl, rfl, rfl⟩

/-- Claim C8 (counterexample): reset applied to the freshly constructed
engine, a reachable state, does not reproduce the constructed state; the
two differ in the trail-age list ([0] against []). -/
theorem claim_C8_counterexample :
    Reachable DEFAULT_CONFIG (mkEngine DEFAULT_CONFIG) ∧
    reset (mkEngine DEFAULT_CONFIG) ≠ mkEngine DEFAULT_CONFIG ∧
    (reset (mkEngine DEFAULT_CONFIG)).trailFrames = [0] ∧
    (mkEngine DEFAULT_CONFIG).trailFrames = [] :=
  ⟨Reachable.base, by decide, rfl, rfl⟩

/-- Claim C8 (amended): calling reset from any reachable engine state
yields exactly the freshly constructed engine state except that the
trail-age list is [0] where the constructor leaves it empty; bike state,
arena, turn queue, counters, trail, grind-depth map and pending segment
events all match the fresh engine. -/
theorem claim_C8_amended {cfg : GameConfig} {s : EngineState} (h : Reachable cfg s) :
    reset s = { mkEngine cfg with trailFrames := [0] } := by
  obtain ⟨hc, hs, hd, _⟩ := reachable_config h
  unfold reset mkEngine Arena.resetRadius Arena.init
  rw [hc, hs, hd]

theorem claim_C8_amended_witness :
    reset (mkEngine DEFAULT_CONFIG) = { mkEngine DEFAULT_CONFIG with trailFrames := [0] } :=
  claim_C8_amended Reachable.base

end Tron
